import Mathlib

/-!
Verification of the BER Automation HWB calculation engine.

Shallow embedding of `ber_automation/ber_engine/{calculator,constants,rating}.py`
and the data model of `ber_automation/models.py`.  Real arithmetic is modelled
over `ℚ` (the Python code uses IEEE doubles; every claim checked here is about
the exact arithmetic of the formulas, and all counterexamples have margins far
above double rounding error).  Python's `round(x, 1)` is modelled as
round-half-to-even on `ℚ`.
-/

namespace BER

/-- Building type classification (models.py `BuildingType`). -/
inductive BuildingType where
  | detached
  | semiDLength
  | semiDWidth
  | terracedLength
  | terracedWidth
deriving DecidableEq, Fintype, Repr

/-- Construction era buckets (models.py `ConstructionEpoch`). -/
inductive ConstructionEpoch where
  | before1980
  | epoch1980_1990
  | epoch1990_2000
  | epoch2000_2010
  | after2010
deriving DecidableEq, Fintype, Repr

/-- Heating system types (models.py `HeatingSystem`). -/
inductive HeatingSystem where
  | oilBoiler
  | gasBoiler
  | biomass
  | electricDirect
  | heatPumpAir
  | heatPumpGround
  | heatPumpWater
  | districtHeating
deriving DecidableEq, Fintype, Repr

/-- Supported climate regions (models.py `Country`). -/
inductive Country where
  | ireland
  | france
  | germany
  | belgium
  | netherlands
  | austria
deriving DecidableEq, Fintype, Repr

/-- Window and door areas by orientation in m² (models.py `WindowDoorAreas`). -/
structure WindowDoorAreas where
  north : ℚ := 0
  east : ℚ := 0
  south : ℚ := 0
  west : ℚ := 0
  doors : ℚ := 0
deriving DecidableEq, Repr

/-- All inputs needed for the HWB calculation (models.py `BuildingInput`). -/
structure BuildingInput where
  length : ℚ
  width : ℚ
  heated_storeys : ℕ := 2
  storey_height : ℚ := 3
  building_type : BuildingType := .detached
  construction_epoch : ConstructionEpoch := .before1980
  country : Country := .ireland
  quantity : ℕ := 1
  residents : Option ℚ := none
  window_door_areas : Option WindowDoorAreas := none
  heating_system : HeatingSystem := .gasBoiler
  hot_water_electric_separate : Bool := false
deriving DecidableEq, Repr

/-- The pydantic field constraints of `BuildingInput`: `length`, `width`,
`storey_height` have `gt=0`, `heated_storeys` has `ge=1`, `quantity` has
`ge=1`.  (`residents` and `window_door_areas` carry no constraint.) -/
def BuildingInput.Valid (b : BuildingInput) : Prop :=
  0 < b.length ∧ 0 < b.width ∧ 1 ≤ b.heated_storeys ∧ 0 < b.storey_height ∧ 1 ≤ b.quantity

instance (b : BuildingInput) : Decidable b.Valid := by
  unfold BuildingInput.Valid
  exact inferInstance

/-- Retrofit measure inputs (models.py `RetrofitInput`); constraints:
`wall_insulation_cm ≥ 0`, `roof_insulation_cm ≥ 0`, `window_u_value > 0`. -/
structure RetrofitInput where
  wall_insulation_cm : ℚ := 12
  roof_insulation_cm : ℚ := 20
  window_u_value : ℚ := 1
  heating_system_after : Option HeatingSystem := none
  hot_water_electric_separate_after : Bool := false
deriving DecidableEq, Repr

/-- The pydantic field constraints of `RetrofitInput`. -/
def RetrofitInput.Valid (r : RetrofitInput) : Prop :=
  0 ≤ r.wall_insulation_cm ∧ 0 ≤ r.roof_insulation_cm ∧ 0 < r.window_u_value

instance (r : RetrofitInput) : Decidable r.Valid := by
  unfold RetrofitInput.Valid
  exact inferInstance

/-- One row of the `U_VALUES` table: keys KD (floor), OD (roof),
AW (external wall), FE (windows). -/
structure UValues where
  KD : ℚ
  OD : ℚ
  AW : ℚ
  FE : ℚ
deriving DecidableEq, Repr

/-- constants.py `U_VALUES` (W/m²K by construction epoch). -/
def U_VALUES : ConstructionEpoch → UValues
  | .before1980 => { KD := 1.35, OD := 0.65, AW := 1.20, FE := 3.00 }
  | .epoch1980_1990 => { KD := 0.75, OD := 0.275, AW := 0.60, FE := 2.50 }
  | .epoch1990_2000 => { KD := 0.60, OD := 0.235, AW := 0.45, FE := 2.15 }
  | .epoch2000_2010 => { KD := 0.40, OD := 0.20, AW := 0.35, FE := 1.40 }
  | .after2010 => { KD := 0.25, OD := 0.20, AW := 0.22, FE := 1.00 }

/-- constants.py `G_VALUES` (solar energy transmittance by epoch). -/
def G_VALUES : ConstructionEpoch → ℚ
  | .before1980 => 0.81
  | .epoch1980_1990 => 0.70
  | .epoch1990_2000 => 0.65
  | .epoch2000_2010 => 0.585
  | .after2010 => 0.465

/-- constants.py `HEATING_DEGREE_DAYS` (base 15.5°C, by country). -/
def HEATING_DEGREE_DAYS : Country → ℚ
  | .ireland => 2149.1
  | .france => 1461.9999999999995
  | .germany => 2157.1
  | .belgium => 1825.5
  | .netherlands => 1921.3
  | .austria => 3400.0

/-- constants.py `HEATING_DAYS` (per year, by country). -/
def HEATING_DAYS : Country → ℚ
  | .ireland => 219
  | .france => 187
  | .germany => 211
  | .belgium => 209
  | .netherlands => 212
  | .austria => 260

/-- One row of the `SOLAR_IRRADIANCE` table (keys north/east/south/west). -/
structure Irradiance where
  north : ℚ
  east : ℚ
  south : ℚ
  west : ℚ
deriving DecidableEq, Repr

/-- constants.py `SOLAR_IRRADIANCE` (kWh/m² during heating season, by country
and orientation). -/
def SOLAR_IRRADIANCE : Country → Irradiance
  | .ireland => { north := 102, east := 227, south := 423, west := 240 }
  | .france => { north := 95, east := 207, south := 412, west := 219 }
  | .germany => { north := 133, east := 215, south := 331, west := 207 }
  | .belgium => { north := 160, east := 222, south := 321, west := 225 }
  | .netherlands => { north := 162, east := 239, south := 365, west := 243 }
  | .austria => { north := 90, east := 150, south := 290, west := 150 }

/-- constants.py `HEATING_SYSTEM_EFFICIENCY` (efficiency, SCOP for heat pumps). -/
def HEATING_SYSTEM_EFFICIENCY : HeatingSystem → ℚ
  | .oilBoiler => 0.85
  | .gasBoiler => 0.90
  | .biomass => 0.875
  | .electricDirect => 0.99
  | .heatPumpAir => 3.50
  | .heatPumpGround => 4.50
  | .heatPumpWater => 4.50
  | .districtHeating => 0.95

/-- constants.py `PRIMARY_ENERGY_FACTOR`. -/
def PRIMARY_ENERGY_FACTOR : HeatingSystem → ℚ
  | .oilBoiler => 1.10
  | .gasBoiler => 1.10
  | .biomass => 1.10
  | .electricDirect => 2.08
  | .heatPumpAir => 2.08
  | .heatPumpGround => 2.08
  | .heatPumpWater => 2.08
  | .districtHeating => 1.10

/-- constants.py `CO2_FACTOR_TONNES` (t CO2 per kWh final energy). -/
def CO2_FACTOR_TONNES : HeatingSystem → ℚ
  | .oilBoiler => 263.9 / 1000000
  | .gasBoiler => (184 + 204) / 2000000
  | .biomass => 0
  | .electricDirect => 210 / 1000000
  | .heatPumpAir => 210 / 1000000
  | .heatPumpGround => 210 / 1000000
  | .heatPumpWater => 210 / 1000000
  | .districtHeating => 180 / 1000000

/-- constants.py `CO2_FACTOR` (kg CO2 per kWh, tonnes × 1000). -/
def CO2_FACTOR (hs : HeatingSystem) : ℚ := CO2_FACTOR_TONNES hs * 1000

/-- constants.py `WINDOW_AREA_FRACTION` (default window/door fraction of the
envelope area, by building type). -/
def WINDOW_AREA_FRACTION : BuildingType → ℚ
  | .detached => 0.15
  | .semiDLength => 0.14
  | .semiDWidth => 0.14
  | .terracedLength => 0.13
  | .terracedWidth => 0.13

/-- constants.py scalar constants. -/
def HOT_WATER_LITRES_PER_PERSON_PER_DAY : ℚ := 40

def HOT_WATER_TEMP_RISE_K : ℚ := 45

def HOT_WATER_SPECIFIC_HEAT : ℚ := 4.2 / 3600

def INSULATION_CONDUCTIVITY : ℚ := 0.035

def FRAME_FACTOR : ℚ := 0.9

def DIRT_FACTOR : ℚ := 0.98

def SHADING_FACTOR : ℚ := 0.75

def AIR_HEAT_CAPACITY : ℚ := 0.34

def AIR_CHANGE_RATE : ℚ := 0.4

def INTERNAL_GAIN_RATE : ℚ := 3.75

def NET_TO_GROSS : ℚ := 0.8

def FLOOR_THICKNESS : ℚ := 0.35

def FLOOR_U_FACTOR : ℚ := 0.7

def THERMAL_BRIDGE_REFERENCE : ℚ := 0.75

def THERMAL_BRIDGE_FACTOR : ℚ := 0.2

def HDD_TO_KWH_FACTOR : ℚ := 0.024

/-- constants.py `BER_BANDS`: `(band, upper_threshold_inclusive, hex_color)`;
`none` stands for the final `float("inf")` threshold. -/
def BER_BANDS : List (String × Option ℚ × String) :=
  [("A1", some 25, "#00A651"),
   ("A2", some 50, "#4DB848"),
   ("A3", some 75, "#8CC63F"),
   ("B1", some 100, "#BFD730"),
   ("B2", some 125, "#FFF200"),
   ("B3", some 150, "#FFC20E"),
   ("C1", some 175, "#F99D1C"),
   ("C2", some 200, "#F47920"),
   ("C3", some 225, "#EF4136"),
   ("D1", some 260, "#ED1C24"),
   ("D2", some 300, "#C1272D"),
   ("E1", some 340, "#A1232B"),
   ("E2", some 380, "#8B1A29"),
   ("F", some 450, "#6D1A27"),
   ("G", none, "#4A1525")]

/-- `kwh_per_m2 <= threshold`, where a `none` threshold is `float("inf")`. -/
def leThreshold (kwh : ℚ) : Option ℚ → Bool
  | none => true
  | some t => decide (kwh ≤ t)

/-- The scan loop of rating.py `get_ber_band`, with the unreachable
fallback `("G", "#4A1525")`. -/
def findBand (kwh : ℚ) : List (String × Option ℚ × String) → String × String
  | [] => ("G", "#4A1525")
  | (band, threshold, color) :: rest =>
    if leThreshold kwh threshold then (band, color) else findBand kwh rest

/-- rating.py `get_ber_band`. -/
def get_ber_band (kwh : ℚ) : String × String := findBand kwh BER_BANDS

/-- HWB calculation result (models.py `HWBResult`). -/
structure HWBResult where
  floor_area : ℚ
  heated_volume : ℚ
  envelope_area : ℚ
  transmission_heat_loss : ℚ
  ventilation_heat_loss : ℚ
  solar_gains : ℚ
  internal_gains : ℚ
  heating_demand_kwh : ℚ
  hwb : ℚ
  final_energy_kwh : ℚ
  final_energy_kwh_per_m2 : ℚ
  hot_water_kwh : ℚ
  total_kwh_per_m2 : ℚ
  co2_kg : ℚ
  co2_kg_per_m2 : ℚ
deriving DecidableEq, Repr

/-- models.py `BuildingInput.effective_residents`:
`residents` when given, else `max(1.0, total_heated_area / 52)` with
`total_heated_area = length * width * heated_storeys`. -/
def effective_residents (b : BuildingInput) : ℚ :=
  match b.residents with
  | some r => r
  | none => max 1 (b.length * b.width * b.heated_storeys / 52)

/-- Excel C2: gross storey area `length * width * heated_storeys`. -/
def gross_area (b : BuildingInput) : ℚ := b.length * b.width * b.heated_storeys

/-- Excel D2: net storey area `gross * 0.8`. -/
def net_area (b : BuildingInput) : ℚ := gross_area b * NET_TO_GROSS

/-- Excel E2: envelope area `perimeter * storeys * storey_height`. -/
def envelope_area (b : BuildingInput) : ℚ :=
  ((b.length + b.width) * 2) * b.heated_storeys * b.storey_height

/-- Excel K2: roof area, single storey footprint. -/
def roof_area (b : BuildingInput) : ℚ := b.length * b.width

/-- Excel L2: floor area, single storey footprint. -/
def floor_area (b : BuildingInput) : ℚ := b.length * b.width

/-- calculator.py `_adjacent_wall_area` (Excel O2, party walls):
`h = heated_storeys * storey_height`, one shared side for semi-detached, two
for terraced, none for detached. -/
def adjacent_wall_area (b : BuildingInput) : ℚ :=
  match b.building_type with
  | .semiDLength => b.length * ((b.heated_storeys : ℚ) * b.storey_height)
  | .semiDWidth => b.width * ((b.heated_storeys : ℚ) * b.storey_height)
  | .terracedLength => b.length * ((b.heated_storeys : ℚ) * b.storey_height) * 2
  | .terracedWidth => b.width * ((b.heated_storeys : ℚ) * b.storey_height) * 2
  | .detached => 0

/-- calculator.py `_window_door_total` (Excel F2 / Input!J2). -/
def window_door_total (b : BuildingInput) (envelope : ℚ) : ℚ :=
  match b.window_door_areas with
  | some wd => wd.north + wd.east + wd.south + wd.west + wd.doors
  | none => envelope * WINDOW_AREA_FRACTION b.building_type

/-- Total window/door area at the envelope actually passed in `_calculate_core`. -/
def win_total (b : BuildingInput) : ℚ := window_door_total b (envelope_area b)

/-- Excel M2: total walls `envelope - windows`. -/
def total_walls (b : BuildingInput) : ℚ := envelope_area b - win_total b

/-- Excel N2: external walls `total walls - adjacent walls`. -/
def external_walls (b : BuildingInput) : ℚ := total_walls b - adjacent_wall_area b

/-- calculator.py `_window_door_by_orientation` (equal split when defaulted). -/
def window_door_by_orientation (b : BuildingInput) (total : ℚ) : WindowDoorAreas :=
  match b.window_door_areas with
  | some wd => wd
  | none =>
    { north := total / 4, east := total / 4, south := total / 4, west := total / 4
      doors := 0 }

/-- The orientation split used in `_calculate_core` (Excel G2-J2). -/
def win_doors (b : BuildingInput) : WindowDoorAreas :=
  window_door_by_orientation b (win_total b)

/-- Excel P2: net inner volume `net_area * (storey_height - 0.35) * storeys`
(the double storey count is an inherited quirk of the reference sheet). -/
def volume (b : BuildingInput) : ℚ :=
  net_area b * (b.storey_height - FLOOR_THICKNESS) * b.heated_storeys

/-- Excel AT2: basic transmission coefficient
`U_win*A_win*1 + U_roof*A_roof*1 + U_floor*A_floor*0.7 + U_wall*A_extwall*1`. -/
def l_e (b : BuildingInput) (u : UValues) : ℚ :=
  u.FE * win_total b * 1
    + u.OD * roof_area b * 1
    + u.KD * floor_area b * FLOOR_U_FACTOR
    + u.AW * external_walls b * 1

/-- Excel AI2+AL2+AO2+AR2: the area sum of the thermal bridge formula. -/
def total_area (b : BuildingInput) : ℚ :=
  win_total b + roof_area b + floor_area b + external_walls b

/-- Excel AU2: thermal bridge supplement
`MAX(0.2*(0.75 - le/area)*le, 0)`, and 0 when the area sum is not positive. -/
def bridge_supplement (le area : ℚ) : ℚ :=
  if 0 < area then
    max (THERMAL_BRIDGE_FACTOR * (THERMAL_BRIDGE_REFERENCE - le / area) * le) 0
  else 0

/-- calculator.py `l_psi`. -/
def l_psi (b : BuildingInput) (u : UValues) : ℚ :=
  bridge_supplement (l_e b u) (total_area b)

/-- Excel AV2: total transmission coefficient. -/
def l_t (b : BuildingInput) (u : UValues) : ℚ := l_e b u + l_psi b u

/-- Excel AW2: transmission heat loss `0.024 * L_t * HDD` (kWh/a). -/
def q_t (b : BuildingInput) (u : UValues) : ℚ :=
  HDD_TO_KWH_FACTOR * l_t b u * HEATING_DEGREE_DAYS b.country

/-- Excel BB2: ventilation coefficient `0.34 * 0.4 * volume`. -/
def l_v (b : BuildingInput) : ℚ := AIR_HEAT_CAPACITY * AIR_CHANGE_RATE * volume b

/-- Excel BC2: ventilation heat loss `0.024 * L_v * HDD`. -/
def q_v (b : BuildingInput) : ℚ :=
  HDD_TO_KWH_FACTOR * l_v b * HEATING_DEGREE_DAYS b.country

/-- Excel BG2: internal gains `0.024 * 3.75 * net_area * heating_days`. -/
def q_i (b : BuildingInput) : ℚ :=
  HDD_TO_KWH_FACTOR * INTERNAL_GAIN_RATE * net_area b * HEATING_DAYS b.country

/-- Excel BT2: effective transmittance `g * 0.9 * 0.98`. -/
def g_eff (g : ℚ) : ℚ := g * FRAME_FACTOR * DIRT_FACTOR

/-- Excel BU2: solar gains. -/
def q_s (b : BuildingInput) (g : ℚ) : ℚ :=
  ((SOLAR_IRRADIANCE b.country).north * (win_doors b).north
      + (SOLAR_IRRADIANCE b.country).east * (win_doors b).east
      + (SOLAR_IRRADIANCE b.country).south * (win_doors b).south
      + (SOLAR_IRRADIANCE b.country).west * (win_doors b).west)
    * SHADING_FACTOR * g_eff g

/-- Excel BY2 with the clamp: `max(0, Q_t + Q_v - Q_i - Q_s)`. -/
def q_heating (b : BuildingInput) (u : UValues) (g : ℚ) : ℚ :=
  max 0 (q_t b u + q_v b - q_i b - q_s b g)

/-- Excel BZ2: `Q_heating / gross_area` guarded against zero area. -/
def hwb_val (b : BuildingInput) (u : UValues) (g : ℚ) : ℚ :=
  if 0 < gross_area b then q_heating b u g / gross_area b else 0

/-- Excel CB2: hot water energy
`residents * 40 * 365 * (4.2/3600) * 45`. -/
def q_hotwater (b : BuildingInput) : ℚ :=
  effective_residents b * HOT_WATER_LITRES_PER_PERSON_PER_DAY * 365
    * HOT_WATER_SPECIFIC_HEAT * HOT_WATER_TEMP_RISE_K

/-- Hot water system efficiency: electric-direct when separated, else the
space heating system efficiency. -/
def hw_eff (b : BuildingInput) : ℚ :=
  if b.hot_water_electric_separate then HEATING_SYSTEM_EFFICIENCY .electricDirect
  else HEATING_SYSTEM_EFFICIENCY b.heating_system

/-- Final (purchased) heating energy `Q_heating / efficiency`. -/
def final_heating (b : BuildingInput) (u : UValues) (g : ℚ) : ℚ :=
  q_heating b u g / HEATING_SYSTEM_EFFICIENCY b.heating_system

/-- Final hot water energy `Q_hw / hw_eff`. -/
def final_hotwater (b : BuildingInput) : ℚ := q_hotwater b / hw_eff b

/-- Combined final energy intensity, guarded against zero area. -/
def total_kwh_per_m2_val (b : BuildingInput) (u : UValues) (g : ℚ) : ℚ :=
  if 0 < gross_area b then (final_heating b u g + final_hotwater b) / gross_area b
  else 0

/-- CO2 of hot water: electric-direct factor when separated. -/
def co2_hotwater (b : BuildingInput) : ℚ :=
  if b.hot_water_electric_separate then final_hotwater b * CO2_FACTOR .electricDirect
  else final_hotwater b * CO2_FACTOR b.heating_system

/-- Total CO2 mass. -/
def co2_total (b : BuildingInput) (u : UValues) (g : ℚ) : ℚ :=
  final_heating b u g * CO2_FACTOR b.heating_system + co2_hotwater b

/-- calculator.py `_calculate_core`: assembles the `HWBResult`. -/
def calculate_core (b : BuildingInput) (u : UValues) (g : ℚ) : HWBResult :=
  { floor_area := gross_area b
    heated_volume := volume b
    envelope_area := envelope_area b
    transmission_heat_loss := l_t b u
    ventilation_heat_loss := l_v b
    solar_gains := q_s b g
    internal_gains := q_i b
    heating_demand_kwh := q_heating b u g
    hwb := hwb_val b u g
    final_energy_kwh := final_heating b u g
    final_energy_kwh_per_m2 :=
      if 0 < gross_area b then final_heating b u g / gross_area b else 0
    hot_water_kwh := q_hotwater b
    total_kwh_per_m2 := total_kwh_per_m2_val b u g
    co2_kg := co2_total b u g
    co2_kg_per_m2 :=
      if 0 < gross_area b then co2_total b u g / gross_area b else 0 }

/-- calculator.py `calculate`. -/
def calculate (b : BuildingInput) : HWBResult :=
  calculate_core b (U_VALUES b.construction_epoch) (G_VALUES b.construction_epoch)

/-- calculator.py `_apply_retrofit`: dump the building, override the heating
system when a substitution is given, always override the hot-water flag with
`hot_water_electric_separate_after`, reconstruct. -/
def apply_retrofit (b : BuildingInput) (r : RetrofitInput) : BuildingInput :=
  { b with
    heating_system :=
      match r.heating_system_after with
      | some h => h
      | none => b.heating_system
    hot_water_electric_separate := r.hot_water_electric_separate_after }

/-- Wall mutation of `calculate_with_retrofit_uvalues`: add an insulation
layer in series, `R_new = R_old + thickness/conductivity`. -/
def retrofit_wall (r : RetrofitInput) (u : UValues) : UValues :=
  if 0 < r.wall_insulation_cm then
    { u with AW := 1 / (1 / u.AW + (r.wall_insulation_cm / 100) / INSULATION_CONDUCTIVITY) }
  else u

/-- Roof mutation of `calculate_with_retrofit_uvalues`. -/
def retrofit_roof (r : RetrofitInput) (u : UValues) : UValues :=
  if 0 < r.roof_insulation_cm then
    { u with OD := 1 / (1 / u.OD + (r.roof_insulation_cm / 100) / INSULATION_CONDUCTIVITY) }
  else u

/-- Window mutation of `calculate_with_retrofit_uvalues`: a positive
replacement U-value overwrites `FE` directly. -/
def retrofit_window (r : RetrofitInput) (u : UValues) : UValues :=
  if 0 < r.window_u_value then { u with FE := r.window_u_value } else u

/-- The `original_u = tbl[epoch].copy()` mutation sequence of
`calculate_with_retrofit_uvalues`: all three assignments hit the copy, in the
source order wall, roof, window, so the table `tbl` itself is untouched. -/
def retrofit_u_values (tbl : ConstructionEpoch → UValues) (b : BuildingInput)
    (r : RetrofitInput) : UValues :=
  retrofit_window r (retrofit_roof r (retrofit_wall r (tbl b.construction_epoch)))

/-- calculator.py `calculate_with_retrofit_uvalues`. -/
def calculate_with_retrofit_uvalues (b : BuildingInput) (r : RetrofitInput) : HWBResult :=
  calculate_core (apply_retrofit b r) (retrofit_u_values U_VALUES b r)
    (G_VALUES b.construction_epoch)

/-- Round-half-to-even to an integer (Python `round` tie behaviour). -/
def roundHalfEven (q : ℚ) : ℤ :=
  if q - ⌊q⌋ < 1 / 2 then ⌊q⌋
  else if 1 / 2 < q - ⌊q⌋ then ⌊q⌋ + 1
  else if Even ⌊q⌋ then ⌊q⌋ else ⌊q⌋ + 1

/-- Python `round(x, 1)` on exact rationals. -/
def pyRound1 (q : ℚ) : ℚ := (roundHalfEven (q * 10) : ℚ) / 10

/-- Final BER rating result (models.py `BERResult`). -/
structure BERResult where
  ber_band : String
  kwh_per_m2 : ℚ
  color_hex : String
  hwb_result : HWBResult
  building_input : BuildingInput
  retrofit_ber_band : Option String := none
  retrofit_kwh_per_m2 : Option ℚ := none
  retrofit_hwb_result : Option HWBResult := none
deriving DecidableEq, Repr

/-- calculator.py `calculate_ber` (the `if retrofit:` test is model truthiness,
i.e. `retrofit is not None`). -/
def calculate_ber (b : BuildingInput) (retrofit : Option RetrofitInput) : BERResult :=
  let hwb_result := calculate b
  let pef := PRIMARY_ENERGY_FACTOR b.heating_system
  let primary := hwb_result.total_kwh_per_m2 * pef
  let band_color := get_ber_band primary
  let base : BERResult :=
    { ber_band := band_color.1
      kwh_per_m2 := pyRound1 primary
      color_hex := band_color.2
      hwb_result := hwb_result
      building_input := b }
  match retrofit with
  | none => base
  | some r =>
    let retrofit_hwb := calculate_with_retrofit_uvalues b r
    let retrofit_building := apply_retrofit b r
    let pef_r := PRIMARY_ENERGY_FACTOR retrofit_building.heating_system
    let retrofit_primary := retrofit_hwb.total_kwh_per_m2 * pef_r
    let r_band := get_ber_band retrofit_primary
    { base with
      retrofit_ber_band := some r_band.1
      retrofit_kwh_per_m2 := some (pyRound1 retrofit_primary)
      retrofit_hwb_result := some retrofit_hwb }

/-- The mutable engine environment: the module-level constant tables that the
Python code could in principle mutate (only `U_VALUES` is ever touched by a
calculation, via the copied dict). -/
structure EngineState where
  u_values : ConstructionEpoch → UValues

/-- State-passing version of `calculate`: reads the table, writes nothing. -/
def calculate_st (s : EngineState) (b : BuildingInput) : HWBResult × EngineState :=
  (calculate_core b (s.u_values b.construction_epoch) (G_VALUES b.construction_epoch), s)

/-- State-passing version of `calculate_with_retrofit_uvalues`: the retrofit
U-values are built from a copy of the row read from the state table, and the
state is returned unchanged. -/
def calculate_with_retrofit_uvalues_st (s : EngineState) (b : BuildingInput)
    (r : RetrofitInput) : HWBResult × EngineState :=
  (calculate_core (apply_retrofit b r) (retrofit_u_values s.u_values b r)
    (G_VALUES b.construction_epoch), s)

/-- State-passing version of `calculate_ber`, threading the state through the
baseline and retrofit calculations. -/
def calculate_ber_st (s : EngineState) (b : BuildingInput)
    (retrofit : Option RetrofitInput) : BERResult × EngineState :=
  let hr := calculate_st s b
  let hwb_result := hr.1
  let pef := PRIMARY_ENERGY_FACTOR b.heating_system
  let primary := hwb_result.total_kwh_per_m2 * pef
  let band_color := get_ber_band primary
  let base : BERResult :=
    { ber_band := band_color.1
      kwh_per_m2 := pyRound1 primary
      color_hex := band_color.2
      hwb_result := hwb_result
      building_input := b }
  match retrofit with
  | none => (base, hr.2)
  | some r =>
    let rr := calculate_with_retrofit_uvalues_st hr.2 b r
    let retrofit_building := apply_retrofit b r
    let pef_r := PRIMARY_ENERGY_FACTOR retrofit_building.heating_system
    let retrofit_primary := rr.1.total_kwh_per_m2 * pef_r
    let r_band := get_ber_band retrofit_primary
    ({ base with
       retrofit_ber_band := some r_band.1
       retrofit_kwh_per_m2 := some (pyRound1 retrofit_primary)
       retrofit_hwb_result := some rr.1 }, rr.2)

/-- Position of an epoch in the ordered era list (0 = oldest). -/
def epochIdx : ConstructionEpoch → ℕ
  | .before1980 => 0
  | .epoch1980_1990 => 1
  | .epoch1990_2000 => 2
  | .epoch2000_2010 => 3
  | .after2010 => 4

/-- The no-op retrofit for a building: 0 cm wall and roof insulation, the
current epoch's window U-value as the replacement value, no heating-system
substitution, and the hot-water override equal to the building's flag. -/
def noop_retrofit (b : BuildingInput) : RetrofitInput :=
  { wall_insulation_cm := 0
    roof_insulation_cm := 0
    window_u_value := (U_VALUES b.construction_epoch).FE
    heating_system_after := none
    hot_water_electric_separate_after := b.hot_water_electric_separate }

/-- A plain detached two-storey 10m×8m-ish box (witness input). -/
def exBox : BuildingInput :=
  { length := 10
    width := 10
    heated_storeys := 2
    storey_height := 3
    building_type := .detached
    construction_epoch := .before1980
    country := .ireland
    heating_system := .gasBoiler }

/-- `exBox` with explicit all-zero window/door areas (witness input). -/
def exZeroWin : BuildingInput :=
  { exBox with
    window_door_areas := some { north := 0, east := 0, south := 0, west := 0, doors := 0 } }

/-- A building whose 50 m² of south glazing makes solar gains exceed all
losses in both the oldest and the newest epoch, so the clamped heating demand
is 0 in both. -/
def exClampSouth : BuildingInput :=
  { length := 5
    width := 5
    heated_storeys := 1
    storey_height := 3
    building_type := .detached
    construction_epoch := .before1980
    country := .ireland
    window_door_areas := some { north := 0, east := 0, south := 50, west := 0, doors := 0 } }

/-- A valid building whose storey height (0.2 m) is below the 0.35 m floor
thickness deduction, making the computed heated volume negative. -/
def exShallow : BuildingInput :=
  { length := 1
    width := 1
    heated_storeys := 1
    storey_height := 1 / 5 }

/-- A small, already well-insulated gas-heated house. -/
def exAfter2010 : BuildingInput :=
  { length := 5
    width := 5
    heated_storeys := 1
    storey_height := 3
    building_type := .detached
    construction_epoch := .after2010
    country := .ireland
    heating_system := .gasBoiler }

/-- A retrofit with positive insulation and an unchanged window U-value that
also switches the heating system to direct electric. -/
def retroElectric : RetrofitInput :=
  { wall_insulation_cm := 12
    roof_insulation_cm := 20
    window_u_value := 1
    heating_system_after := some .electricDirect }

/-- A wall/roof/window retrofit with no heating-system substitution and the
hot-water flag left as `exBox` has it. -/
def retroEnvelope : RetrofitInput :=
  { wall_insulation_cm := 12
    roof_insulation_cm := 20
    window_u_value := 1
    heating_system_after := none
    hot_water_electric_separate_after := false }

/-- A terraced (width-adjoining) building much wider than long: the default
window fraction plus the two party walls exceeds the envelope. -/
def exTerracedWide : BuildingInput :=
  { length := 1
    width := 10
    heated_storeys := 1
    storey_height := 3
    building_type := .terracedWidth
    construction_epoch := .before1980
    country := .ireland }

/-! ## Table facts -/

theorem U_VALUES_KD_pos : ∀ e, 0 < (U_VALUES e).KD := by
  intro e
  cases e <;> norm_num [U_VALUES, G_VALUES]

theorem U_VALUES_OD_pos : ∀ e, 0 < (U_VALUES e).OD := by
  intro e
  cases e <;> norm_num [U_VALUES, G_VALUES]

theorem U_VALUES_AW_pos : ∀ e, 0 < (U_VALUES e).AW := by
  intro e
  cases e <;> norm_num [U_VALUES, G_VALUES]

theorem U_VALUES_FE_pos : ∀ e, 0 < (U_VALUES e).FE := by
  intro e
  cases e <;> norm_num [U_VALUES, G_VALUES]

theorem U_VALUES_AW_lt_FE : ∀ e, (U_VALUES e).AW < (U_VALUES e).FE := by
  intro e
  cases e <;> norm_num [U_VALUES, G_VALUES]

theorem G_VALUES_pos : ∀ e, 0 < G_VALUES e := by
  intro e
  cases e <;> norm_num [U_VALUES, G_VALUES]

theorem HDD_pos : ∀ c, 0 < HEATING_DEGREE_DAYS c := by
  intro c
  cases c <;> norm_num [HEATING_DEGREE_DAYS, HEATING_DAYS, SOLAR_IRRADIANCE]

theorem HEATING_DAYS_pos : ∀ c, 0 < HEATING_DAYS c := by
  intro c
  cases c <;> norm_num [HEATING_DEGREE_DAYS, HEATING_DAYS, SOLAR_IRRADIANCE]

theorem IRR_nonneg : ∀ c, 0 ≤ (SOLAR_IRRADIANCE c).north ∧ 0 ≤ (SOLAR_IRRADIANCE c).east
    ∧ 0 ≤ (SOLAR_IRRADIANCE c).south ∧ 0 ≤ (SOLAR_IRRADIANCE c).west := by
  intro c
  cases c <;> norm_num [HEATING_DEGREE_DAYS, HEATING_DAYS, SOLAR_IRRADIANCE]

theorem EFF_pos : ∀ hs, 0 < HEATING_SYSTEM_EFFICIENCY hs := by
  intro hs
  cases hs <;> norm_num [HEATING_SYSTEM_EFFICIENCY, PRIMARY_ENERGY_FACTOR, CO2_FACTOR, CO2_FACTOR_TONNES]

theorem PEF_pos : ∀ hs, 0 < PRIMARY_ENERGY_FACTOR hs := by
  intro hs
  cases hs <;> norm_num [HEATING_SYSTEM_EFFICIENCY, PRIMARY_ENERGY_FACTOR, CO2_FACTOR, CO2_FACTOR_TONNES]

theorem CO2_nonneg : ∀ hs, 0 ≤ CO2_FACTOR hs := by
  intro hs
  cases hs <;> norm_num [HEATING_SYSTEM_EFFICIENCY, PRIMARY_ENERGY_FACTOR, CO2_FACTOR, CO2_FACTOR_TONNES]

theorem FRAC_pos : ∀ t, 0 < WINDOW_AREA_FRACTION t := by
  intro t
  cases t <;> norm_num [WINDOW_AREA_FRACTION]

/-- Componentwise comparison of the U/G tables across strictly ordered epochs:
floor, wall and window U-values and the g-value drop strictly, the roof
U-value only weakly (it has equal entries 0.20 in the two newest epochs). -/
theorem U_mono_of_idx_lt : ∀ e1 e2, epochIdx e1 < epochIdx e2 →
    (U_VALUES e2).KD < (U_VALUES e1).KD ∧ (U_VALUES e2).OD ≤ (U_VALUES e1).OD
      ∧ (U_VALUES e2).AW < (U_VALUES e1).AW ∧ (U_VALUES e2).FE < (U_VALUES e1).FE
      ∧ G_VALUES e2 < G_VALUES e1 := by
  intro e1 e2
  cases e1 <;> cases e2 <;> norm_num [U_VALUES, G_VALUES, epochIdx]

/-! ## The thermal-bridge supplement -/

theorem bridge_supplement_nonneg (le area : ℚ) : 0 ≤ bridge_supplement le area := by
  unfold bridge_supplement
  split_ifs
  · exact le_max_right _ 0
  · exact le_refl 0

/-- Polynomial core of the monotonicity of `le + bridge_supplement le area`
for a positive area, phrased in the scaled variable `t = le / area`. -/
theorem bridge_core {A t s : ℚ} (hA : 0 < A) (hts : t < s) :
    t * A + max (0.2 * (0.75 - t) * (t * A)) 0
      < s * A + max (0.2 * (0.75 - s) * (s * A)) 0 := by
  have hsA0 : (0:ℚ) ≤ max (0.2 * (0.75 - s) * (s * A)) 0 := le_max_right _ 0
  rcases le_or_lt (0.2 * (0.75 - t) * (t * A)) 0 with hgt | hgt
  · have hmax : max (0.2 * (0.75 - t) * (t * A)) 0 = 0 := max_eq_right hgt
    have h1 : t * A < s * A := (mul_lt_mul_right hA).mpr hts
    rw [hmax]
    linarith
  · have hmax : max (0.2 * (0.75 - t) * (t * A)) 0 = 0.2 * (0.75 - t) * (t * A) :=
      max_eq_left hgt.le
    have htA : 0 < (0.75 - t) * (t * A) := by nlinarith
    have ht0 : 0 < t := by
      by_contra hc
      push_neg at hc
      have h1 : t * A ≤ 0 := by nlinarith [mul_le_mul_of_nonneg_right hc hA.le]
      have h2 : (0:ℚ) < 0.75 - t := by linarith
      nlinarith [mul_nonneg h2.le (neg_nonneg.mpr h1)]
    have ht34 : t < 0.75 := by
      by_contra hc
      push_neg at hc
      have hp : 0 < t * A := mul_pos (by linarith) hA
      nlinarith [mul_nonneg (by linarith : (0:ℚ) ≤ t - 0.75) hp.le]
    rw [hmax]
    rcases lt_or_le s 0.75 with hs34 | hs34
    · have hles : 0.2 * (0.75 - s) * (s * A) ≤ max (0.2 * (0.75 - s) * (s * A)) 0 :=
        le_max_left _ 0
      have key : t * A + 0.2 * (0.75 - t) * (t * A)
          < s * A + 0.2 * (0.75 - s) * (s * A) := by
        nlinarith [mul_pos (mul_pos hA (sub_pos.mpr hts))
          (show (0:ℚ) < 23/20 - (t + s)/5 by nlinarith)]
      linarith
    · have key : t * A + 0.2 * (0.75 - t) * (t * A) < 0.75 * A := by
        nlinarith [mul_pos (mul_pos hA (sub_pos.mpr ht34)) (show (0:ℚ) < 5 - t by nlinarith)]
      have hsA : 0.75 * A ≤ s * A := mul_le_mul_of_nonneg_right hs34 hA.le
      linarith

/-- Adding the thermal-bridge supplement preserves strict order of the basic
transmission coefficient (same area sum). -/
theorem add_bridge_lt (area : ℚ) {x y : ℚ} (hxy : x < y) :
    x + bridge_supplement x area < y + bridge_supplement y area := by
  unfold bridge_supplement THERMAL_BRIDGE_FACTOR THERMAL_BRIDGE_REFERENCE
  split_ifs with hA
  · have h1 : x / area * area = x := div_mul_cancel₀ x hA.ne'
    have h2 : y / area * area = y := div_mul_cancel₀ y hA.ne'
    have hts : x / area < y / area := by
      rw [div_lt_div_iff_of_pos_right hA]
      exact hxy
    have h := bridge_core hA hts
    rw [h1, h2] at h
    exact h
  · linarith

theorem add_bridge_le (area : ℚ) {x y : ℚ} (hxy : x ≤ y) :
    x + bridge_supplement x area ≤ y + bridge_supplement y area := by
  rcases eq_or_lt_of_le hxy with rfl | h
  · exact le_refl _
  · exact (add_bridge_lt area h).le

/-- The supplement grows with the area sum (for a fixed coefficient). -/
theorem bridge_supplement_area_mono {x a1 a2 : ℚ} (h : a1 ≤ a2) :
    bridge_supplement x a1 ≤ bridge_supplement x a2 := by
  unfold bridge_supplement THERMAL_BRIDGE_FACTOR THERMAL_BRIDGE_REFERENCE
  split_ifs with h1 h2 h2
  · rcases le_or_lt x 0 with hx | hx
    · have hd : x / a1 ≤ 0 := div_nonpos_iff.mpr (Or.inr ⟨hx, h1.le⟩)
      have ht : 0.2 * (0.75 - x / a1) * x ≤ 0 := by nlinarith
      exact max_le (ht.trans (le_max_right _ 0)) (le_max_right _ 0)
    · have hd : x / a2 ≤ x / a1 := by
        rw [div_le_div_iff₀ h2 h1]
        nlinarith
      have ht : 0.2 * (0.75 - x / a1) * x ≤ 0.2 * (0.75 - x / a2) * x := by nlinarith
      exact max_le_max ht (le_refl 0)
  · exact absurd (lt_of_lt_of_le h1 h) h2
  · exact le_max_right _ 0
  · exact le_refl 0

/-- Strict-then-weak combination used across building-type comparisons. -/
theorem add_bridge_lt_of_lt_le {x y a1 a2 : ℚ} (hx : x < y) (ha : a1 ≤ a2) :
    x + bridge_supplement x a1 < y + bridge_supplement y a2 := by
  have h1 := add_bridge_lt a1 hx
  have h2 := bridge_supplement_area_mono (x := y) ha
  linarith

/-! ## Rounding -/

theorem roundHalfEven_bounds (q : ℚ) : ⌊q⌋ ≤ roundHalfEven q ∧ roundHalfEven q ≤ ⌊q⌋ + 1 := by
  unfold roundHalfEven
  split_ifs <;> omega

theorem roundHalfEven_mono {x y : ℚ} (h : x ≤ y) : roundHalfEven x ≤ roundHalfEven y := by
  have hf : ⌊x⌋ ≤ ⌊y⌋ := Int.floor_le_floor h
  rcases lt_or_eq_of_le hf with hlt | heq
  · have h1 := (roundHalfEven_bounds x).2
    have h2 := (roundHalfEven_bounds y).1
    omega
  · unfold roundHalfEven
    rw [← heq]
    have hr : x - ⌊x⌋ ≤ y - ⌊x⌋ := by linarith
    split_ifs <;> first | omega | (exfalso; linarith)

theorem pyRound1_mono {x y : ℚ} (h : x ≤ y) : pyRound1 x ≤ pyRound1 y := by
  unfold pyRound1
  have h1 : x * 10 ≤ y * 10 := by linarith
  have h2 : ((roundHalfEven (x * 10) : ℤ) : ℚ) ≤ ((roundHalfEven (y * 10) : ℤ) : ℚ) := by
    exact_mod_cast roundHalfEven_mono h1
  linarith

/-! ## Geometry sign facts -/

theorem storeys_pos {b : BuildingInput} (hb : b.Valid) : (0:ℚ) < b.heated_storeys := by
  have h : (1:ℚ) ≤ (b.heated_storeys : ℚ) := by exact_mod_cast hb.2.2.1
  linarith

theorem gross_area_pos {b : BuildingInput} (hb : b.Valid) : 0 < gross_area b :=
  mul_pos (mul_pos hb.1 hb.2.1) (storeys_pos hb)

theorem roof_area_pos {b : BuildingInput} (hb : b.Valid) : 0 < roof_area b :=
  mul_pos hb.1 hb.2.1

theorem floor_area_pos {b : BuildingInput} (hb : b.Valid) : 0 < floor_area b :=
  mul_pos hb.1 hb.2.1

theorem envelope_area_pos {b : BuildingInput} (hb : b.Valid) : 0 < envelope_area b := by
  unfold envelope_area
  have h1 := hb.1
  have h2 := hb.2.1
  have h3 := storeys_pos hb
  have h4 := hb.2.2.2.1
  positivity

theorem win_total_default {b : BuildingInput} (h : b.window_door_areas = none) :
    win_total b = envelope_area b * WINDOW_AREA_FRACTION b.building_type := by
  unfold win_total window_door_total
  rw [h]

theorem win_total_default_nonneg {b : BuildingInput} (hb : b.Valid)
    (h : b.window_door_areas = none) : 0 ≤ win_total b := by
  rw [win_total_default h]
  exact le_of_lt (mul_pos (envelope_area_pos hb) (FRAC_pos b.building_type))


/-! ## Non-negativity helpers -/

theorem win_doors_nonneg {b : BuildingInput} (hb : b.Valid)
    (hwd : ∀ wd, b.window_door_areas = some wd →
      0 ≤ wd.north ∧ 0 ≤ wd.east ∧ 0 ≤ wd.south ∧ 0 ≤ wd.west ∧ 0 ≤ wd.doors) :
    0 ≤ (win_doors b).north ∧ 0 ≤ (win_doors b).east ∧ 0 ≤ (win_doors b).south
      ∧ 0 ≤ (win_doors b).west := by
  unfold win_doors window_door_by_orientation
  cases h : b.window_door_areas with
  | some wd =>
    simp only [h]
    obtain ⟨h1, h2, h3, h4, _⟩ := hwd wd h
    exact ⟨h1, h2, h3, h4⟩
  | none =>
    simp only [h]
    have hwt : 0 ≤ win_total b := win_total_default_nonneg hb h
    refine ⟨?_, ?_, ?_, ?_⟩ <;> exact div_nonneg hwt (by norm_num)

theorem q_s_nonneg {b : BuildingInput} {g : ℚ} (hb : b.Valid) (hg : 0 ≤ g)
    (hwd : ∀ wd, b.window_door_areas = some wd →
      0 ≤ wd.north ∧ 0 ≤ wd.east ∧ 0 ≤ wd.south ∧ 0 ≤ wd.west ∧ 0 ≤ wd.doors) :
    0 ≤ q_s b g := by
  obtain ⟨h1, h2, h3, h4⟩ := win_doors_nonneg hb hwd
  obtain ⟨i1, i2, i3, i4⟩ := IRR_nonneg b.country
  have hsum : 0 ≤ (SOLAR_IRRADIANCE b.country).north * (win_doors b).north
      + (SOLAR_IRRADIANCE b.country).east * (win_doors b).east
      + (SOLAR_IRRADIANCE b.country).south * (win_doors b).south
      + (SOLAR_IRRADIANCE b.country).west * (win_doors b).west :=
    add_nonneg (add_nonneg (add_nonneg (mul_nonneg i1 h1) (mul_nonneg i2 h2))
      (mul_nonneg i3 h3)) (mul_nonneg i4 h4)
  unfold q_s g_eff SHADING_FACTOR FRAME_FACTOR DIRT_FACTOR
  exact mul_nonneg (mul_nonneg hsum (by norm_num))
    (mul_nonneg (mul_nonneg hg (by norm_num)) (by norm_num))

theorem effective_residents_nonneg {b : BuildingInput}
    (hres : ∀ x, b.residents = some x → 0 ≤ x) : 0 ≤ effective_residents b := by
  unfold effective_residents
  cases h : b.residents with
  | some x =>
    simp only [h]
    exact hres x h
  | none =>
    simp only [h]
    exact le_trans zero_le_one (le_max_left _ _)

theorem q_hotwater_nonneg {b : BuildingInput}
    (hres : ∀ x, b.residents = some x → 0 ≤ x) : 0 ≤ q_hotwater b := by
  have h := effective_residents_nonneg hres
  unfold q_hotwater HOT_WATER_LITRES_PER_PERSON_PER_DAY HOT_WATER_SPECIFIC_HEAT
    HOT_WATER_TEMP_RISE_K
  exact mul_nonneg (mul_nonneg (mul_nonneg (mul_nonneg h (by norm_num)) (by norm_num))
    (by norm_num)) (by norm_num)

theorem hw_eff_pos (b : BuildingInput) : 0 < hw_eff b := by
  unfold hw_eff
  split_ifs
  · exact EFF_pos _
  · exact EFF_pos _

theorem net_area_nonneg {b : BuildingInput} (hb : b.Valid) : 0 ≤ net_area b := by
  unfold net_area NET_TO_GROSS
  exact mul_nonneg (gross_area_pos hb).le (by norm_num)

theorem volume_nonneg {b : BuildingInput} (hb : b.Valid)
    (hh : FLOOR_THICKNESS ≤ b.storey_height) : 0 ≤ volume b := by
  unfold volume
  exact mul_nonneg (mul_nonneg (net_area_nonneg hb) (by linarith)) (storeys_pos hb).le

theorem q_i_nonneg {b : BuildingInput} (hb : b.Valid) : 0 ≤ q_i b := by
  unfold q_i HDD_TO_KWH_FACTOR INTERNAL_GAIN_RATE
  exact mul_nonneg (mul_nonneg (mul_nonneg (by norm_num) (by norm_num))
    (net_area_nonneg hb)) (HEATING_DAYS_pos b.country).le

/-- Claim C4 (amended): for a constructor-valid building whose storey height
is at least the 0.35 m floor-thickness deduction, whose explicit residents
value (when given) is non-negative and whose explicit window/door areas (when
given) are non-negative, `calculate` returns (it is a total function of the
embedding, every enum having a row in every table) and every listed area,
volume and energy figure is non-negative; in particular a negative net
heating demand is clamped to zero.  Without the three extra hypotheses the
claim fails: the constructor accepts `storey_height = 0.2`, which makes
`heated_volume` negative. -/
theorem calculate_safety (b : BuildingInput) (hb : b.Valid)
    (hh : FLOOR_THICKNESS ≤ b.storey_height)
    (hres : ∀ x, b.residents = some x → 0 ≤ x)
    (hwd : ∀ wd, b.window_door_areas = some wd →
      0 ≤ wd.north ∧ 0 ≤ wd.east ∧ 0 ≤ wd.south ∧ 0 ≤ wd.west ∧ 0 ≤ wd.doors) :
    0 ≤ (calculate b).floor_area ∧ 0 ≤ (calculate b).heated_volume
      ∧ 0 ≤ (calculate b).envelope_area ∧ 0 ≤ (calculate b).solar_gains
      ∧ 0 ≤ (calculate b).internal_gains ∧ 0 ≤ (calculate b).heating_demand_kwh
      ∧ 0 ≤ (calculate b).hwb ∧ 0 ≤ (calculate b).final_energy_kwh
      ∧ 0 ≤ (calculate b).final_energy_kwh_per_m2 ∧ 0 ≤ (calculate b).hot_water_kwh
      ∧ 0 ≤ (calculate b).total_kwh_per_m2 ∧ 0 ≤ (calculate b).co2_kg
      ∧ 0 ≤ (calculate b).co2_kg_per_m2 := by
  have hg : 0 < gross_area b := gross_area_pos hb
  have hqh : 0 ≤ q_heating b (U_VALUES b.construction_epoch) (G_VALUES b.construction_epoch) :=
    le_max_left 0 _
  have heff : 0 < HEATING_SYSTEM_EFFICIENCY b.heating_system := EFF_pos _
  have hqs : 0 ≤ q_s b (G_VALUES b.construction_epoch) :=
    q_s_nonneg hb (G_VALUES_pos b.construction_epoch).le hwd
  have hqhw : 0 ≤ q_hotwater b := q_hotwater_nonneg hres
  have hfh : 0 ≤ final_heating b (U_VALUES b.construction_epoch) (G_VALUES b.construction_epoch) :=
    div_nonneg hqh heff.le
  have hfhw : 0 ≤ final_hotwater b := div_nonneg hqhw (hw_eff_pos b).le
  have hco2 : 0 ≤ co2_total b (U_VALUES b.construction_epoch) (G_VALUES b.construction_epoch) := by
    refine add_nonneg (mul_nonneg hfh (CO2_nonneg _)) ?_
    unfold co2_hotwater
    split_ifs
    · exact mul_nonneg hfhw (CO2_nonneg _)
    · exact mul_nonneg hfhw (CO2_nonneg _)
  refine ⟨hg.le, volume_nonneg hb hh, (envelope_area_pos hb).le, hqs, q_i_nonneg hb,
    hqh, ?_, hfh, ?_, hqhw, ?_, hco2, ?_⟩
  · show 0 ≤ hwb_val b (U_VALUES b.construction_epoch) (G_VALUES b.construction_epoch)
    unfold hwb_val
    rw [if_pos hg]
    exact div_nonneg hqh hg.le
  · show 0 ≤ if 0 < gross_area b then
      final_heating b (U_VALUES b.construction_epoch) (G_VALUES b.construction_epoch)
        / gross_area b else 0
    rw [if_pos hg]
    exact div_nonneg hfh hg.le
  · show 0 ≤ total_kwh_per_m2_val b (U_VALUES b.construction_epoch)
      (G_VALUES b.construction_epoch)
    unfold total_kwh_per_m2_val
    rw [if_pos hg]
    exact div_nonneg (add_nonneg hfh hfhw) hg.le
  · show 0 ≤ if 0 < gross_area b then
      co2_total b (U_VALUES b.construction_epoch) (G_VALUES b.construction_epoch)
        / gross_area b else 0
    rw [if_pos hg]
    exact div_nonneg hco2 hg.le

/-- Claim C4, counterexample: the constructor accepts a 0.2 m storey height
(only `> 0` is required), and then the heated volume
`net_area * (0.2 - 0.35) * storeys` is negative. -/
theorem calculate_safety_cex : (calculate exShallow).heated_volume < 0 := by
  norm_num [calculate, calculate_core, volume, net_area, gross_area, NET_TO_GROSS,
    FLOOR_THICKNESS, exShallow]

/-- Claim C4, witness: the amended theorem applied to a concrete valid box. -/
theorem calculate_safety_wit :
    0 ≤ (calculate exBox).floor_area ∧ 0 ≤ (calculate exBox).heated_volume
      ∧ 0 ≤ (calculate exBox).envelope_area ∧ 0 ≤ (calculate exBox).solar_gains
      ∧ 0 ≤ (calculate exBox).internal_gains ∧ 0 ≤ (calculate exBox).heating_demand_kwh
      ∧ 0 ≤ (calculate exBox).hwb ∧ 0 ≤ (calculate exBox).final_energy_kwh
      ∧ 0 ≤ (calculate exBox).final_energy_kwh_per_m2 ∧ 0 ≤ (calculate exBox).hot_water_kwh
      ∧ 0 ≤ (calculate exBox).total_kwh_per_m2 ∧ 0 ≤ (calculate exBox).co2_kg
      ∧ 0 ≤ (calculate exBox).co2_kg_per_m2 :=
  calculate_safety exBox (by norm_num [BuildingInput.Valid, exBox])
    (by norm_num [FLOOR_THICKNESS, exBox])
    (fun x h => by simp [exBox] at h)
    (fun wd h => by simp [exBox] at h)

/-! ## Claims -/


/-- For every valid building the envelope exceeds the party-wall area. -/
theorem envelope_sub_adjacent_pos {b : BuildingInput} (hb : b.Valid) :
    0 < envelope_area b - adjacent_wall_area b := by
  have h1 := hb.1
  have h2 := hb.2.1
  have hsh : 0 < (b.heated_storeys : ℚ) * b.storey_height :=
    mul_pos (storeys_pos hb) hb.2.2.2.1
  unfold envelope_area adjacent_wall_area
  cases h : b.building_type <;> dsimp only <;>
    nlinarith [mul_pos h1 hsh, mul_pos h2 hsh]

/-- With default (fraction-derived) windows the transmission coefficient is
strictly positive for every table row with positive entries and a window
U-value at least the wall U-value: the window term compensates the (possibly
negative) external wall term because the window area is a fraction of the
envelope and `FE ≥ AW`. -/
theorem l_t_pos_default {b : BuildingInput} (u : UValues) (hb : b.Valid)
    (h : b.window_door_areas = none) (hOD : 0 < u.OD) (hKD : 0 < u.KD)
    (hAW : 0 < u.AW) (hFE : u.AW ≤ u.FE) : 0 < l_t b u := by
  have hle : 0 < l_e b u := by
    have hroof := roof_area_pos hb
    have hfloor := floor_area_pos hb
    have he := envelope_area_pos hb
    have hf := FRAC_pos b.building_type
    have head := envelope_sub_adjacent_pos hb
    have hwin : win_total b = envelope_area b * WINDOW_AREA_FRACTION b.building_type :=
      win_total_default h
    unfold l_e external_walls total_walls FLOOR_U_FACTOR
    rw [hwin]
    nlinarith [mul_pos hAW head, mul_nonneg (sub_nonneg.mpr hFE) (mul_pos he hf).le,
      mul_pos hOD hroof, mul_pos hKD hfloor]
  have hbr := bridge_supplement_nonneg (l_e b u) (total_area b)
  unfold l_t l_psi
  linarith

/-- Claim C9 (amended): a valid terraced-width building with default windows
whose width is sufficiently larger than its length makes the default
window/door area plus the party-wall area exceed the envelope, so the
computed external wall area is negative — but the transmission_heat_loss
coefficient returned by calculate is nevertheless strictly positive (with
default windows it is positive for every valid building, since the window
U-value exceeds the wall U-value in every epoch). -/
theorem negative_external_wall :
    external_walls exTerracedWide < 0
      ∧ 0 < (calculate exTerracedWide).transmission_heat_loss := by
  constructor
  · norm_num [external_walls, total_walls, win_total, window_door_total, envelope_area,
      adjacent_wall_area, WINDOW_AREA_FRACTION, exTerracedWide]
  · norm_num [calculate, calculate_core, l_t, l_psi, l_e, bridge_supplement, total_area,
      win_total, window_door_total, external_walls, total_walls, adjacent_wall_area,
      envelope_area, roof_area, floor_area, WINDOW_AREA_FRACTION, U_VALUES,
      THERMAL_BRIDGE_REFERENCE, THERMAL_BRIDGE_FACTOR, FLOOR_U_FACTOR, max_def,
      exTerracedWide]

/-- Claim C9, counterexample to the claimed negative transmission: no valid
building with default windows has a negative (or zero) transmission
coefficient, refuting the claimed existence. -/
theorem negative_transmission_refuted :
    ¬∃ b : BuildingInput, b.Valid ∧ b.window_door_areas = none
        ∧ external_walls b < 0 ∧ (calculate b).transmission_heat_loss < 0 := by
  rintro ⟨b, hb, h, _, hlt⟩
  have hpos : 0 < (calculate b).transmission_heat_loss :=
    l_t_pos_default (U_VALUES b.construction_epoch) hb h
      (U_VALUES_OD_pos b.construction_epoch) (U_VALUES_KD_pos b.construction_epoch)
      (U_VALUES_AW_pos b.construction_epoch) (U_VALUES_AW_lt_FE b.construction_epoch).le
  linarith


/-- Explicit all-zero window/door areas give a zero window total. -/
theorem win_total_zero {b : BuildingInput}
    (h : b.window_door_areas
      = some { north := 0, east := 0, south := 0, west := 0, doors := 0 }) :
    win_total b = 0 := by
  unfold win_total window_door_total
  rw [h]
  norm_num

/-- Explicit all-zero window/door areas give zero solar gains. -/
theorem q_s_zero {b : BuildingInput} (g : ℚ)
    (h : b.window_door_areas
      = some { north := 0, east := 0, south := 0, west := 0, doors := 0 }) :
    q_s b g = 0 := by
  unfold q_s win_doors window_door_by_orientation
  rw [h]
  norm_num

/-- Claim C3 (amended): holding everything else fixed, replacing the
construction epoch by a strictly newer bucket strictly decreases `hwb`,
provided the window/door areas are explicitly zero (so the simultaneous drop
of the solar g-value cannot outweigh the U-value improvement), the external
wall area is non-negative, and the older epoch's heating demand is not
already clamped to zero.  Without those provisos the claim fails: with
windows, both epochs can clamp to hwb = 0 (equality), and in mild climates a
window-heavy building can even increase its hwb in a newer epoch. -/
theorem epoch_monotonicity (b : BuildingInput) (e2 : ConstructionEpoch) (hb : b.Valid)
    (hwd : b.window_door_areas
      = some { north := 0, east := 0, south := 0, west := 0, doors := 0 })
    (hext : 0 ≤ external_walls b)
    (hidx : epochIdx b.construction_epoch < epochIdx e2)
    (hpos : 0 < (calculate b).heating_demand_kwh) :
    (calculate { b with construction_epoch := e2 }).hwb < (calculate b).hwb := by
  obtain ⟨hKD, hOD, hAW, hFE, hG⟩ := U_mono_of_idx_lt b.construction_epoch e2 hidx
  have hwt : win_total b = 0 := win_total_zero hwd
  have hwt2 : win_total { b with construction_epoch := e2 } = 0 := win_total_zero hwd
  have hq1 : q_s b (G_VALUES b.construction_epoch) = 0 := q_s_zero _ hwd
  have hq2 : q_s { b with construction_epoch := e2 } (G_VALUES e2) = 0 := q_s_zero _ hwd
  have e_roof : roof_area { b with construction_epoch := e2 } = roof_area b := rfl
  have e_floor : floor_area { b with construction_epoch := e2 } = floor_area b := rfl
  have e_ext : external_walls { b with construction_epoch := e2 } = external_walls b := rfl
  have hle : l_e { b with construction_epoch := e2 } (U_VALUES e2)
      < l_e b (U_VALUES b.construction_epoch) := by
    unfold l_e FLOOR_U_FACTOR
    rw [e_roof, e_floor, e_ext, hwt2, hwt]
    nlinarith [mul_lt_mul_of_pos_right hKD (floor_area_pos hb),
      mul_le_mul_of_nonneg_right hOD (roof_area_pos hb).le,
      mul_le_mul_of_nonneg_right hAW.le hext]
  have hlt : l_t { b with construction_epoch := e2 } (U_VALUES e2)
      < l_t b (U_VALUES b.construction_epoch) := by
    have e_A : total_area { b with construction_epoch := e2 } = total_area b := by
      unfold total_area
      rw [e_roof, e_floor, e_ext, hwt2, hwt]
    unfold l_t l_psi
    rw [e_A]
    exact add_bridge_lt (total_area b) hle
  have e_cty : ({ b with construction_epoch := e2 } : BuildingInput).country = b.country :=
    rfl
  have hqt : q_t { b with construction_epoch := e2 } (U_VALUES e2)
      < q_t b (U_VALUES b.construction_epoch) := by
    unfold q_t HDD_TO_KWH_FACTOR
    rw [e_cty]
    nlinarith [mul_lt_mul_of_pos_right hlt (HDD_pos b.country)]
  have e_qv : q_v { b with construction_epoch := e2 } = q_v b := rfl
  have e_qi : q_i { b with construction_epoch := e2 } = q_i b := rfl
  have hX1 : 0 < q_t b (U_VALUES b.construction_epoch) + q_v b - q_i b
      - q_s b (G_VALUES b.construction_epoch) := by
    by_contra hc
    push_neg at hc
    have h0 : q_heating b (U_VALUES b.construction_epoch) (G_VALUES b.construction_epoch)
        = 0 := by
      unfold q_heating
      exact max_eq_left hc
    have hp : 0 < q_heating b (U_VALUES b.construction_epoch)
        (G_VALUES b.construction_epoch) := hpos
    linarith
  have hX2lt : q_t { b with construction_epoch := e2 } (U_VALUES e2)
        + q_v { b with construction_epoch := e2 }
        - q_i { b with construction_epoch := e2 }
        - q_s { b with construction_epoch := e2 } (G_VALUES e2)
      < q_t b (U_VALUES b.construction_epoch) + q_v b - q_i b
        - q_s b (G_VALUES b.construction_epoch) := by
    rw [e_qv, e_qi, hq1, hq2]
    linarith
  have hqh : q_heating { b with construction_epoch := e2 } (U_VALUES e2) (G_VALUES e2)
      < q_heating b (U_VALUES b.construction_epoch) (G_VALUES b.construction_epoch) := by
    unfold q_heating
    calc max 0 (q_t { b with construction_epoch := e2 } (U_VALUES e2)
          + q_v { b with construction_epoch := e2 }
          - q_i { b with construction_epoch := e2 }
          - q_s { b with construction_epoch := e2 } (G_VALUES e2))
        < q_t b (U_VALUES b.construction_epoch) + q_v b - q_i b
          - q_s b (G_VALUES b.construction_epoch) := max_lt hX1 hX2lt
      _ = max 0 (q_t b (U_VALUES b.construction_epoch) + q_v b - q_i b
          - q_s b (G_VALUES b.construction_epoch)) := (max_eq_right hX1.le).symm
  have hgross : 0 < gross_area b := gross_area_pos hb
  have e_g : gross_area { b with construction_epoch := e2 } = gross_area b := rfl
  show hwb_val { b with construction_epoch := e2 } (U_VALUES e2) (G_VALUES e2)
      < hwb_val b (U_VALUES b.construction_epoch) (G_VALUES b.construction_epoch)
  unfold hwb_val
  rw [e_g, if_pos hgross, if_pos hgross]
  exact (div_lt_div_iff_of_pos_right hgross).mpr hqh

/-- Claim C3, counterexample: a detached Irish house with 50 m² of south
glazing has solar gains above all losses in both the oldest and the newest
epoch, so the clamp produces hwb = 0 in both — moving to the strictly newer
bucket does not strictly decrease hwb. -/
theorem epoch_monotonicity_cex :
    epochIdx exClampSouth.construction_epoch < epochIdx ConstructionEpoch.after2010
      ∧ (calculate { exClampSouth with construction_epoch := .after2010 }).hwb
          = (calculate exClampSouth).hwb := by
  constructor
  · norm_num [exClampSouth, epochIdx]
  · have h1 : (calculate exClampSouth).hwb = 0 := by
      norm_num [calculate, calculate_core, hwb_val, q_heating, q_t, l_t, l_psi, l_e,
      bridge_supplement, total_area, win_total, window_door_total, external_walls,
      total_walls, adjacent_wall_area, envelope_area, roof_area, floor_area, gross_area,
      net_area, volume, l_v, q_v, q_i, q_s, win_doors, window_door_by_orientation, g_eff,
      U_VALUES, G_VALUES, HEATING_DEGREE_DAYS, HEATING_DAYS, SOLAR_IRRADIANCE,
      WINDOW_AREA_FRACTION, FRAME_FACTOR, DIRT_FACTOR, SHADING_FACTOR, AIR_HEAT_CAPACITY,
      AIR_CHANGE_RATE, INTERNAL_GAIN_RATE, NET_TO_GROSS, FLOOR_THICKNESS, FLOOR_U_FACTOR,
      THERMAL_BRIDGE_REFERENCE, THERMAL_BRIDGE_FACTOR, HDD_TO_KWH_FACTOR, max_def, exClampSouth]
    have h2 : (calculate { exClampSouth with construction_epoch := .after2010 }).hwb
        = 0 := by
      norm_num [calculate, calculate_core, hwb_val, q_heating, q_t, l_t, l_psi, l_e,
      bridge_supplement, total_area, win_total, window_door_total, external_walls,
      total_walls, adjacent_wall_area, envelope_area, roof_area, floor_area, gross_area,
      net_area, volume, l_v, q_v, q_i, q_s, win_doors, window_door_by_orientation, g_eff,
      U_VALUES, G_VALUES, HEATING_DEGREE_DAYS, HEATING_DAYS, SOLAR_IRRADIANCE,
      WINDOW_AREA_FRACTION, FRAME_FACTOR, DIRT_FACTOR, SHADING_FACTOR, AIR_HEAT_CAPACITY,
      AIR_CHANGE_RATE, INTERNAL_GAIN_RATE, NET_TO_GROSS, FLOOR_THICKNESS, FLOOR_U_FACTOR,
      THERMAL_BRIDGE_REFERENCE, THERMAL_BRIDGE_FACTOR, HDD_TO_KWH_FACTOR, max_def, exClampSouth]
    rw [h1, h2]

/-- Claim C3, witness: the amended theorem applied to a zero-window box moved
from before-1980 to after-2010. -/
theorem epoch_monotonicity_wit :
    (calculate { exZeroWin with construction_epoch := .after2010 }).hwb
      < (calculate exZeroWin).hwb :=
  epoch_monotonicity exZeroWin .after2010
    (by norm_num [BuildingInput.Valid, exZeroWin, exBox])
    rfl
    (by norm_num [external_walls, total_walls, win_total, window_door_total,
      adjacent_wall_area, envelope_area, exZeroWin, exBox])
    (by norm_num [epochIdx, exZeroWin, exBox])
    (by norm_num [calculate, calculate_core, hwb_val, q_heating, q_t, l_t, l_psi, l_e,
      bridge_supplement, total_area, win_total, window_door_total, external_walls,
      total_walls, adjacent_wall_area, envelope_area, roof_area, floor_area, gross_area,
      net_area, volume, l_v, q_v, q_i, q_s, win_doors, window_door_by_orientation, g_eff,
      U_VALUES, G_VALUES, HEATING_DEGREE_DAYS, HEATING_DAYS, SOLAR_IRRADIANCE,
      WINDOW_AREA_FRACTION, FRAME_FACTOR, DIRT_FACTOR, SHADING_FACTOR, AIR_HEAT_CAPACITY,
      AIR_CHANGE_RATE, INTERNAL_GAIN_RATE, NET_TO_GROSS, FLOOR_THICKNESS, FLOOR_U_FACTOR,
      THERMAL_BRIDGE_REFERENCE, THERMAL_BRIDGE_FACTOR, HDD_TO_KWH_FACTOR, max_def, exZeroWin, exBox])


/-- Changing only the building type: a strictly larger party wall and a weakly
larger window fraction give a strictly smaller transmission coefficient. -/
theorem type_l_t_lt {b : BuildingInput} (hb : b.Valid) {t1 t2 : BuildingType}
    (u : UValues) (hAW : 0 < u.AW) (hFEAW : u.AW ≤ u.FE)
    (hadj : adjacent_wall_area { b with building_type := t1 }
        < adjacent_wall_area { b with building_type := t2 })
    (hfrac : WINDOW_AREA_FRACTION t2 ≤ WINDOW_AREA_FRACTION t1) :
    l_t { b with building_type := t2 } u < l_t { b with building_type := t1 } u := by
  have e_env : envelope_area { b with building_type := t2 }
      = envelope_area { b with building_type := t1 } := rfl
  have e_roof : roof_area { b with building_type := t2 }
      = roof_area { b with building_type := t1 } := rfl
  have e_floor : floor_area { b with building_type := t2 }
      = floor_area { b with building_type := t1 } := rfl
  have hwin : win_total { b with building_type := t2 }
      ≤ win_total { b with building_type := t1 } := by
    unfold win_total window_door_total
    cases h : b.window_door_areas with
    | some wd =>
      have h1 : ({ b with building_type := t1 } : BuildingInput).window_door_areas
          = some wd := h
      have h2 : ({ b with building_type := t2 } : BuildingInput).window_door_areas
          = some wd := h
      simp only [h1, h2]
      exact le_rfl
    | none =>
      have h1 : ({ b with building_type := t1 } : BuildingInput).window_door_areas
          = none := h
      have h2 : ({ b with building_type := t2 } : BuildingInput).window_door_areas
          = none := h
      simp only [h1, h2]
      show envelope_area { b with building_type := t2 } * WINDOW_AREA_FRACTION t2
          ≤ envelope_area { b with building_type := t1 } * WINDOW_AREA_FRACTION t1
      rw [e_env]
      exact mul_le_mul_of_nonneg_left hfrac (envelope_area_pos hb).le
  have hA : total_area { b with building_type := t2 }
      ≤ total_area { b with building_type := t1 } := by
    have i1 : total_area { b with building_type := t1 }
        = envelope_area { b with building_type := t1 }
          - adjacent_wall_area { b with building_type := t1 }
          + roof_area { b with building_type := t1 }
          + floor_area { b with building_type := t1 } := by
      unfold total_area external_walls total_walls
      ring
    have i2 : total_area { b with building_type := t2 }
        = envelope_area { b with building_type := t2 }
          - adjacent_wall_area { b with building_type := t2 }
          + roof_area { b with building_type := t2 }
          + floor_area { b with building_type := t2 } := by
      unfold total_area external_walls total_walls
      ring
    rw [i1, i2, e_env, e_roof, e_floor]
    linarith
  have hle : l_e { b with building_type := t2 } u < l_e { b with building_type := t1 } u := by
    have i1 : l_e { b with building_type := t1 } u
        = (u.FE - u.AW) * win_total { b with building_type := t1 }
          + u.AW * (envelope_area { b with building_type := t1 }
            - adjacent_wall_area { b with building_type := t1 })
          + u.OD * roof_area { b with building_type := t1 }
          + u.KD * floor_area { b with building_type := t1 } * FLOOR_U_FACTOR := by
      unfold l_e external_walls total_walls
      ring
    have i2 : l_e { b with building_type := t2 } u
        = (u.FE - u.AW) * win_total { b with building_type := t2 }
          + u.AW * (envelope_area { b with building_type := t2 }
            - adjacent_wall_area { b with building_type := t2 })
          + u.OD * roof_area { b with building_type := t2 }
          + u.KD * floor_area { b with building_type := t2 } * FLOOR_U_FACTOR := by
      unfold l_e external_walls total_walls
      ring
    rw [i1, i2, e_env, e_roof, e_floor]
    nlinarith [mul_pos hAW (sub_pos.mpr hadj),
      mul_nonneg (sub_nonneg.mpr hFEAW) (sub_nonneg.mpr hwin)]
  unfold l_t l_psi
  exact add_bridge_lt_of_lt_le hle hA

/-- Claim C6: with every other field fixed, the transmission heat-loss
coefficient is strictly larger for detached than for the corresponding
semi-detached type, and strictly larger for semi-detached than for the
corresponding terraced type, on both the length and width adjoining sides
(with default windows the fraction drop 0.15/0.14/0.13 only reinforces the
party-wall effect; with explicit windows only the party wall changes). -/
theorem envelope_sharing_mono (b : BuildingInput) (hb : b.Valid) :
    (calculate { b with building_type := .semiDLength }).transmission_heat_loss
        < (calculate { b with building_type := .detached }).transmission_heat_loss
      ∧ (calculate { b with building_type := .terracedLength }).transmission_heat_loss
        < (calculate { b with building_type := .semiDLength }).transmission_heat_loss
      ∧ (calculate { b with building_type := .semiDWidth }).transmission_heat_loss
        < (calculate { b with building_type := .detached }).transmission_heat_loss
      ∧ (calculate { b with building_type := .terracedWidth }).transmission_heat_loss
        < (calculate { b with building_type := .semiDWidth }).transmission_heat_loss := by
  have hsh : 0 < (b.heated_storeys : ℚ) * b.storey_height :=
    mul_pos (storeys_pos hb) hb.2.2.2.1
  have hl : 0 < b.length * ((b.heated_storeys : ℚ) * b.storey_height) :=
    mul_pos hb.1 hsh
  have hw : 0 < b.width * ((b.heated_storeys : ℚ) * b.storey_height) :=
    mul_pos hb.2.1 hsh
  have hu := U_VALUES_AW_pos b.construction_epoch
  have huf := (U_VALUES_AW_lt_FE b.construction_epoch).le
  refine ⟨?_, ?_, ?_, ?_⟩
  · exact type_l_t_lt hb (U_VALUES b.construction_epoch) hu huf hl
      (by norm_num [WINDOW_AREA_FRACTION])
  · exact type_l_t_lt hb (U_VALUES b.construction_epoch) hu huf
      (by show b.length * ((b.heated_storeys : ℚ) * b.storey_height)
            < b.length * ((b.heated_storeys : ℚ) * b.storey_height) * 2
          linarith)
      (by norm_num [WINDOW_AREA_FRACTION])
  · exact type_l_t_lt hb (U_VALUES b.construction_epoch) hu huf hw
      (by norm_num [WINDOW_AREA_FRACTION])
  · exact type_l_t_lt hb (U_VALUES b.construction_epoch) hu huf
      (by show b.width * ((b.heated_storeys : ℚ) * b.storey_height)
            < b.width * ((b.heated_storeys : ℚ) * b.storey_height) * 2
          linarith)
      (by norm_num [WINDOW_AREA_FRACTION])

/-- Claim C6, witness: the theorem applied to a concrete valid box. -/
theorem envelope_sharing_mono_wit :
    (calculate { exBox with building_type := .semiDLength }).transmission_heat_loss
        < (calculate { exBox with building_type := .detached }).transmission_heat_loss
      ∧ (calculate { exBox with building_type := .terracedLength }).transmission_heat_loss
        < (calculate { exBox with building_type := .semiDLength }).transmission_heat_loss
      ∧ (calculate { exBox with building_type := .semiDWidth }).transmission_heat_loss
        < (calculate { exBox with building_type := .detached }).transmission_heat_loss
      ∧ (calculate { exBox with building_type := .terracedWidth }).transmission_heat_loss
        < (calculate { exBox with building_type := .semiDWidth }).transmission_heat_loss :=
  envelope_sharing_mono exBox (by norm_num [BuildingInput.Valid, exBox])


/-- Adding a positive series resistance can only lower a positive U-value. -/
theorem one_div_add_le {a t : ℚ} (ha : 0 < a) (ht : 0 ≤ t) : 1 / (1 / a + t) ≤ a := by
  have h1 : 0 < 1 / a := by positivity
  have h2 : 1 / a ≤ 1 / a + t := by linarith
  calc 1 / (1 / a + t) ≤ 1 / (1 / a) := one_div_le_one_div_of_le h1 h2
    _ = a := one_div_one_div a

/-- With positive wall and roof insulation and a positive replacement window
U-value, the retrofit U-value row keeps the floor value, weakly improves roof
and wall, and takes the replacement window value. -/
theorem retrofit_u_le {b : BuildingInput} {r : RetrofitInput}
    (hw : 0 < r.wall_insulation_cm) (hr : 0 < r.roof_insulation_cm)
    (hwu : 0 < r.window_u_value) :
    (retrofit_u_values U_VALUES b r).KD = (U_VALUES b.construction_epoch).KD
      ∧ (retrofit_u_values U_VALUES b r).OD ≤ (U_VALUES b.construction_epoch).OD
      ∧ (retrofit_u_values U_VALUES b r).AW ≤ (U_VALUES b.construction_epoch).AW
      ∧ (retrofit_u_values U_VALUES b r).FE = r.window_u_value := by
  have hOD := U_VALUES_OD_pos b.construction_epoch
  have hAW := U_VALUES_AW_pos b.construction_epoch
  have htr : 0 ≤ (r.roof_insulation_cm / 100) / INSULATION_CONDUCTIVITY := by
    unfold INSULATION_CONDUCTIVITY
    positivity
  have htw : 0 ≤ (r.wall_insulation_cm / 100) / INSULATION_CONDUCTIVITY := by
    unfold INSULATION_CONDUCTIVITY
    positivity
  unfold retrofit_u_values retrofit_window retrofit_roof retrofit_wall
  rw [if_pos hw, if_pos hr, if_pos hwu]
  exact ⟨rfl, one_div_add_le hOD htr, one_div_add_le hAW htw, rfl⟩

/-- Claim C1 (amended): for a constructor-valid building with non-negative
total window/door area and non-negative external wall area, a retrofit with
positive wall and roof insulation, a positive replacement window U-value at
most the current epoch's, no heating-system substitution, and a hot-water
override equal to the building's flag yields a retrofit primary-energy
intensity (`retrofit_kwh_per_m2`) at most the baseline (`kwh_per_m2`); and
the no-op retrofit (0 cm wall and roof, window U-value equal to the current
one, no heating substitution, hot-water override equal to the original flag)
reproduces the baseline `HWBResult` exactly.  The extra provisos are forced:
a heating-system substitution (or a flipped hot-water flag, or a negative
external wall area) can raise the retrofit intensity above the baseline. -/
theorem retrofit_improvement :
    (∀ (b : BuildingInput) (r : RetrofitInput), b.Valid →
      0 ≤ win_total b → 0 ≤ external_walls b →
      0 < r.wall_insulation_cm → 0 < r.roof_insulation_cm →
      0 < r.window_u_value →
      r.window_u_value ≤ (U_VALUES b.construction_epoch).FE →
      r.heating_system_after = none →
      r.hot_water_electric_separate_after = b.hot_water_electric_separate →
      ∃ v, (calculate_ber b (some r)).retrofit_kwh_per_m2 = some v
        ∧ v ≤ (calculate_ber b (some r)).kwh_per_m2)
    ∧ ∀ b : BuildingInput,
        calculate_with_retrofit_uvalues b (noop_retrofit b) = calculate b := by
  constructor
  · intro b r hb hwt hext hwall hroof hwu hwufe hheat hflag
    obtain ⟨hKD, hOD, hAW, hFE⟩ := retrofit_u_le hwall hroof hwu
    have hbr : apply_retrofit b r = b := by
      unfold apply_retrofit
      rw [hheat, hflag]
    have hFEle : (retrofit_u_values U_VALUES b r).FE
        ≤ (U_VALUES b.construction_epoch).FE := by
      rw [hFE]
      exact hwufe
    have hle : l_e b (retrofit_u_values U_VALUES b r)
        ≤ l_e b (U_VALUES b.construction_epoch) := by
      unfold l_e FLOOR_U_FACTOR
      rw [hKD]
      nlinarith [mul_le_mul_of_nonneg_right hFEle hwt,
        mul_le_mul_of_nonneg_right hOD (roof_area_pos hb).le,
        mul_le_mul_of_nonneg_right hAW hext]
    have hlt : l_t b (retrofit_u_values U_VALUES b r)
        ≤ l_t b (U_VALUES b.construction_epoch) := by
      unfold l_t l_psi
      exact add_bridge_le (total_area b) hle
    have hqt : q_t b (retrofit_u_values U_VALUES b r)
        ≤ q_t b (U_VALUES b.construction_epoch) := by
      unfold q_t HDD_TO_KWH_FACTOR
      nlinarith [mul_le_mul_of_nonneg_right hlt (HDD_pos b.country).le]
    have hqh : q_heating b (retrofit_u_values U_VALUES b r) (G_VALUES b.construction_epoch)
        ≤ q_heating b (U_VALUES b.construction_epoch) (G_VALUES b.construction_epoch) := by
      unfold q_heating
      exact max_le_max le_rfl (by linarith)
    have heff := EFF_pos b.heating_system
    have hgross := gross_area_pos hb
    have htot : total_kwh_per_m2_val b (retrofit_u_values U_VALUES b r)
          (G_VALUES b.construction_epoch)
        ≤ total_kwh_per_m2_val b (U_VALUES b.construction_epoch)
          (G_VALUES b.construction_epoch) := by
      unfold total_kwh_per_m2_val final_heating
      rw [if_pos hgross, if_pos hgross]
      have h1 : q_heating b (retrofit_u_values U_VALUES b r) (G_VALUES b.construction_epoch)
            / HEATING_SYSTEM_EFFICIENCY b.heating_system
          ≤ q_heating b (U_VALUES b.construction_epoch) (G_VALUES b.construction_epoch)
            / HEATING_SYSTEM_EFFICIENCY b.heating_system :=
        (div_le_div_iff_of_pos_right heff).mpr hqh
      exact (div_le_div_iff_of_pos_right hgross).mpr (by linarith)
    refine ⟨pyRound1 ((calculate_with_retrofit_uvalues b r).total_kwh_per_m2
        * PRIMARY_ENERGY_FACTOR (apply_retrofit b r).heating_system), rfl, ?_⟩
    show pyRound1 ((calculate_with_retrofit_uvalues b r).total_kwh_per_m2
        * PRIMARY_ENERGY_FACTOR (apply_retrofit b r).heating_system)
      ≤ pyRound1 ((calculate b).total_kwh_per_m2
        * PRIMARY_ENERGY_FACTOR b.heating_system)
    apply pyRound1_mono
    have e1 : (calculate_with_retrofit_uvalues b r).total_kwh_per_m2
        = total_kwh_per_m2_val b (retrofit_u_values U_VALUES b r)
          (G_VALUES b.construction_epoch) := by
      unfold calculate_with_retrofit_uvalues
      rw [hbr]
      rfl
    have e2 : (apply_retrofit b r).heating_system = b.heating_system := by
      rw [hbr]
    rw [e1, e2]
    have e3 : (calculate b).total_kwh_per_m2
        = total_kwh_per_m2_val b (U_VALUES b.construction_epoch)
          (G_VALUES b.construction_epoch) := rfl
    rw [e3]
    exact mul_le_mul_of_nonneg_right htot (PEF_pos b.heating_system).le
  · intro b
    have hFE := U_VALUES_FE_pos b.construction_epoch
    unfold calculate_with_retrofit_uvalues retrofit_u_values retrofit_window retrofit_roof
      retrofit_wall apply_retrofit calculate noop_retrofit
    dsimp only
    rw [if_neg (lt_irrefl (0:ℚ)), if_neg (lt_irrefl (0:ℚ)), if_pos hFE]

/-- Claim C1, counterexample: the conditions of the claim (positive wall and
roof insulation, replacement window U-value equal to the current 1.00) allow
a heating-system substitution to direct electric, whose primary-energy factor
2.08 outweighs the envelope gains — the retrofit intensity 111.2 exceeds the
baseline 84.6. -/
theorem retrofit_improvement_cex :
    0 < retroElectric.wall_insulation_cm ∧ 0 < retroElectric.roof_insulation_cm
      ∧ retroElectric.window_u_value ≤ (U_VALUES exAfter2010.construction_epoch).FE
      ∧ (calculate_ber exAfter2010 (some retroElectric)).kwh_per_m2
          < ((calculate_ber exAfter2010 (some retroElectric)).retrofit_kwh_per_m2).getD 0 := by
  refine ⟨by norm_num [retroElectric], by norm_num [retroElectric],
    by norm_num [retroElectric, exAfter2010, U_VALUES], ?_⟩
  have h1 : (calculate_ber exAfter2010 (some retroElectric)).kwh_per_m2 = 423 / 5 := by
    show pyRound1 ((calculate exAfter2010).total_kwh_per_m2
        * PRIMARY_ENERGY_FACTOR exAfter2010.heating_system) = 423 / 5
    norm_num [calculate, calculate_core, hwb_val, q_heating, q_t, l_t, l_psi, l_e,
      bridge_supplement, total_area, win_total, window_door_total, external_walls,
      total_walls, adjacent_wall_area, envelope_area, roof_area, floor_area, gross_area,
      net_area, volume, l_v, q_v, q_i, q_s, win_doors, window_door_by_orientation, g_eff,
      effective_residents, q_hotwater, hw_eff, final_heating, final_hotwater,
      total_kwh_per_m2_val, U_VALUES, G_VALUES, HEATING_DEGREE_DAYS, HEATING_DAYS,
      SOLAR_IRRADIANCE, HEATING_SYSTEM_EFFICIENCY, PRIMARY_ENERGY_FACTOR,
      WINDOW_AREA_FRACTION, HOT_WATER_LITRES_PER_PERSON_PER_DAY, HOT_WATER_TEMP_RISE_K,
      HOT_WATER_SPECIFIC_HEAT, FRAME_FACTOR, DIRT_FACTOR, SHADING_FACTOR,
      AIR_HEAT_CAPACITY, AIR_CHANGE_RATE, INTERNAL_GAIN_RATE, NET_TO_GROSS,
      FLOOR_THICKNESS, FLOOR_U_FACTOR, THERMAL_BRIDGE_REFERENCE, THERMAL_BRIDGE_FACTOR,
      HDD_TO_KWH_FACTOR, max_def, pyRound1, roundHalfEven, Int.floor_eq_iff, exAfter2010]
  have h2 : (calculate_ber exAfter2010 (some retroElectric)).retrofit_kwh_per_m2
      = some (556 / 5) := by
    show some (pyRound1 ((calculate_with_retrofit_uvalues exAfter2010 retroElectric).total_kwh_per_m2
        * PRIMARY_ENERGY_FACTOR (apply_retrofit exAfter2010 retroElectric).heating_system))
      = some (556 / 5)
    norm_num [calculate, calculate_core, hwb_val, q_heating, q_t, l_t, l_psi, l_e,
      bridge_supplement, total_area, win_total, window_door_total, external_walls,
      total_walls, adjacent_wall_area, envelope_area, roof_area, floor_area, gross_area,
      net_area, volume, l_v, q_v, q_i, q_s, win_doors, window_door_by_orientation, g_eff,
      effective_residents, q_hotwater, hw_eff, final_heating, final_hotwater,
      total_kwh_per_m2_val, U_VALUES, G_VALUES, HEATING_DEGREE_DAYS, HEATING_DAYS,
      SOLAR_IRRADIANCE, HEATING_SYSTEM_EFFICIENCY, PRIMARY_ENERGY_FACTOR,
      WINDOW_AREA_FRACTION, HOT_WATER_LITRES_PER_PERSON_PER_DAY, HOT_WATER_TEMP_RISE_K,
      HOT_WATER_SPECIFIC_HEAT, FRAME_FACTOR, DIRT_FACTOR, SHADING_FACTOR,
      AIR_HEAT_CAPACITY, AIR_CHANGE_RATE, INTERNAL_GAIN_RATE, NET_TO_GROSS,
      FLOOR_THICKNESS, FLOOR_U_FACTOR, THERMAL_BRIDGE_REFERENCE, THERMAL_BRIDGE_FACTOR,
      HDD_TO_KWH_FACTOR, max_def, pyRound1, roundHalfEven, Int.floor_eq_iff,
      calculate_with_retrofit_uvalues, retrofit_u_values, retrofit_wall, retrofit_roof,
      retrofit_window, apply_retrofit, INSULATION_CONDUCTIVITY, retroElectric, exAfter2010]
  rw [h1, h2]
  norm_num

/-- Claim C1, witness: the amended improvement applied to a concrete box with
a pure envelope retrofit. -/
theorem retrofit_improvement_wit :
    ∃ v, (calculate_ber exBox (some retroEnvelope)).retrofit_kwh_per_m2 = some v
      ∧ v ≤ (calculate_ber exBox (some retroEnvelope)).kwh_per_m2 :=
  retrofit_improvement.1 exBox retroEnvelope
    (by norm_num [BuildingInput.Valid, exBox])
    (by norm_num [win_total, window_door_total, envelope_area, WINDOW_AREA_FRACTION, exBox])
    (by norm_num [external_walls, total_walls, win_total, window_door_total, envelope_area,
      adjacent_wall_area, WINDOW_AREA_FRACTION, exBox])
    (by norm_num [retroEnvelope]) (by norm_num [retroEnvelope]) (by norm_num [retroEnvelope])
    (by norm_num [retroEnvelope, exBox, U_VALUES])
    rfl rfl

/-- Claim C2: the building used for the retrofit calculation takes the
retrofit's heating-system substitution when one is supplied and otherwise
keeps the original heating system (`Option.getD` states exactly that), takes
the retrofit's hot-water-separation override (a non-optional boolean, so one
is always supplied), and leaves every other field of the original
`BuildingInput` unchanged. -/
theorem apply_retrofit_fields (b : BuildingInput) (r : RetrofitInput) :
    (apply_retrofit b r).heating_system = r.heating_system_after.getD b.heating_system
      ∧ (apply_retrofit b r).hot_water_electric_separate
          = r.hot_water_electric_separate_after
      ∧ (apply_retrofit b r).length = b.length
      ∧ (apply_retrofit b r).width = b.width
      ∧ (apply_retrofit b r).heated_storeys = b.heated_storeys
      ∧ (apply_retrofit b r).storey_height = b.storey_height
      ∧ (apply_retrofit b r).building_type = b.building_type
      ∧ (apply_retrofit b r).construction_epoch = b.construction_epoch
      ∧ (apply_retrofit b r).country = b.country
      ∧ (apply_retrofit b r).quantity = b.quantity
      ∧ (apply_retrofit b r).residents = b.residents
      ∧ (apply_retrofit b r).window_door_areas = b.window_door_areas := by
  refine ⟨?_, rfl, rfl, rfl, rfl, rfl, rfl, rfl, rfl, rfl, rfl, rfl⟩
  cases hr : r.heating_system_after <;> simp [apply_retrofit, hr]

/-- Claim C8: none of the three entry points writes to the engine state
holding the global `U_VALUES` table — the state threaded through the
state-passing versions comes back unchanged (the retrofit works on a copy of
the epoch's U-value row and a freshly constructed `BuildingInput`), and on the
pristine table they agree with the pure functions. -/
theorem no_mutation (s : EngineState) (b : BuildingInput) (r : RetrofitInput)
    (ro : Option RetrofitInput) :
    (calculate_st s b).2 = s
      ∧ (calculate_with_retrofit_uvalues_st s b r).2 = s
      ∧ (calculate_ber_st s b ro).2 = s
      ∧ (calculate_st { u_values := U_VALUES } b).1 = calculate b
      ∧ (calculate_with_retrofit_uvalues_st { u_values := U_VALUES } b r).1
          = calculate_with_retrofit_uvalues b r
      ∧ (calculate_ber_st { u_values := U_VALUES } b ro).1 = calculate_ber b ro := by
  refine ⟨rfl, rfl, ?_, rfl, rfl, ?_⟩ <;> cases ro <;> rfl

/-- Claim C10: the `quantity` field has no influence: two buildings differing
only in `quantity` get identical `HWBResult`s from `calculate` and identical
band, intensity, color and breakdown fields from `calculate_ber`; only the
echoed `building_input` keeps the respective quantity. -/
theorem quantity_irrelevant (b : BuildingInput) (ro : Option RetrofitInput) (q1 q2 : ℕ) :
    calculate { b with quantity := q1 } = calculate { b with quantity := q2 }
      ∧ (calculate_ber { b with quantity := q1 } ro).ber_band
          = (calculate_ber { b with quantity := q2 } ro).ber_band
      ∧ (calculate_ber { b with quantity := q1 } ro).kwh_per_m2
          = (calculate_ber { b with quantity := q2 } ro).kwh_per_m2
      ∧ (calculate_ber { b with quantity := q1 } ro).color_hex
          = (calculate_ber { b with quantity := q2 } ro).color_hex
      ∧ (calculate_ber { b with quantity := q1 } ro).hwb_result
          = (calculate_ber { b with quantity := q2 } ro).hwb_result
      ∧ (calculate_ber { b with quantity := q1 } ro).retrofit_ber_band
          = (calculate_ber { b with quantity := q2 } ro).retrofit_ber_band
      ∧ (calculate_ber { b with quantity := q1 } ro).retrofit_kwh_per_m2
          = (calculate_ber { b with quantity := q2 } ro).retrofit_kwh_per_m2
      ∧ (calculate_ber { b with quantity := q1 } ro).retrofit_hwb_result
          = (calculate_ber { b with quantity := q2 } ro).retrofit_hwb_result
      ∧ (calculate_ber { b with quantity := q1 } ro).building_input.quantity = q1 := by
  refine ⟨rfl, ?_, ?_, ?_, ?_, ?_, ?_, ?_, ?_⟩ <;> cases ro <;> rfl

/-- Claim C7 (amended): across strictly ordered epoch buckets the window,
floor and wall U-values and the solar g-value strictly decrease; the roof
U-value decreases only weakly — the 2000-2010 and after-2010 buckets share
the same roof value 0.20, and the decrease is strict for every other pair. -/
theorem u_values_monotone :
    (∀ e1 e2, epochIdx e1 < epochIdx e2 →
      (U_VALUES e2).KD < (U_VALUES e1).KD ∧ (U_VALUES e2).AW < (U_VALUES e1).AW
        ∧ (U_VALUES e2).FE < (U_VALUES e1).FE ∧ G_VALUES e2 < G_VALUES e1
        ∧ (U_VALUES e2).OD ≤ (U_VALUES e1).OD)
    ∧ (U_VALUES .epoch2000_2010).OD = (U_VALUES .after2010).OD
    ∧ (∀ e1 e2, epochIdx e1 < epochIdx e2 →
        ¬(e1 = .epoch2000_2010 ∧ e2 = .after2010) →
        (U_VALUES e2).OD < (U_VALUES e1).OD) := by
  refine ⟨?_, by norm_num [U_VALUES], ?_⟩
  · intro e1 e2 h
    revert h
    cases e1 <;> cases e2 <;> norm_num [epochIdx, U_VALUES, G_VALUES]
  · intro e1 e2 h hne
    revert h hne
    cases e1 <;> cases e2 <;> norm_num [epochIdx, U_VALUES]

/-- Claim C7, counterexample to strict decrease: the roof U-value does not
drop from the 2000-2010 bucket to the after-2010 bucket (both are 0.20). -/
theorem u_values_roof_cex :
    ¬((U_VALUES .after2010).OD < (U_VALUES .epoch2000_2010).OD) := by
  norm_num [U_VALUES]

theorem findBand_skip {kwh x : ℚ} {band color : String}
    {rest : List (String × Option ℚ × String)} (h : ¬(kwh ≤ x)) :
    findBand kwh ((band, some x, color) :: rest) = findBand kwh rest := by
  simp [findBand, leThreshold, h]

theorem findBand_here {kwh x : ℚ} {band color : String}
    {rest : List (String × Option ℚ × String)} (h : kwh ≤ x) :
    findBand kwh ((band, some x, color) :: rest) = (band, color) := by
  simp [findBand, leThreshold, h]

theorem findBand_last {kwh : ℚ} {band color : String}
    {rest : List (String × Option ℚ × String)} :
    findBand kwh ((band, none, color) :: rest) = (band, color) := by
  simp [findBand, leThreshold]

theorem findBand_mem (kwh : ℚ) (l : List (String × Option ℚ × String)) :
    findBand kwh l = ("G", "#4A1525") ∨ ∃ e ∈ l, findBand kwh l = (e.1, e.2.2) := by
  induction l with
  | nil => exact Or.inl rfl
  | cons a rest ih =>
    obtain ⟨band, threshold, color⟩ := a
    by_cases h : leThreshold kwh threshold = true
    · refine Or.inr ⟨(band, threshold, color), List.mem_cons_self _ _, ?_⟩
      simp [findBand, h]
    · have heq : findBand kwh ((band, threshold, color) :: rest) = findBand kwh rest := by
        simp [findBand, h]
      rcases ih with h1 | ⟨e, he, h2⟩
      · exact Or.inl (heq.trans h1)
      · exact Or.inr ⟨e, List.mem_cons_of_mem _ he, heq.trans h2⟩

/-- Claim C5: the rating classifier is total (every input lands on one of the
bands of the table), values above the last finite threshold classify as the
terminal band G, negative values classify as A1, and an input exactly at any
of the 14 finite thresholds classifies into that band, not the next. -/
theorem ber_band_spec :
    (∀ kwh : ℚ, 450 < kwh → get_ber_band kwh = ("G", "#4A1525"))
      ∧ (∀ kwh : ℚ, kwh < 0 → get_ber_band kwh = ("A1", "#00A651"))
      ∧ (∀ kwh : ℚ, get_ber_band kwh ∈
          [("A1", "#00A651"), ("A2", "#4DB848"), ("A3", "#8CC63F"), ("B1", "#BFD730"),
           ("B2", "#FFF200"), ("B3", "#FFC20E"), ("C1", "#F99D1C"), ("C2", "#F47920"),
           ("C3", "#EF4136"), ("D1", "#ED1C24"), ("D2", "#C1272D"), ("E1", "#A1232B"),
           ("E2", "#8B1A29"), ("F", "#6D1A27"), ("G", "#4A1525")])
      ∧ get_ber_band 25 = ("A1", "#00A651") ∧ get_ber_band 50 = ("A2", "#4DB848")
      ∧ get_ber_band 75 = ("A3", "#8CC63F") ∧ get_ber_band 100 = ("B1", "#BFD730")
      ∧ get_ber_band 125 = ("B2", "#FFF200") ∧ get_ber_band 150 = ("B3", "#FFC20E")
      ∧ get_ber_band 175 = ("C1", "#F99D1C") ∧ get_ber_band 200 = ("C2", "#F47920")
      ∧ get_ber_band 225 = ("C3", "#EF4136") ∧ get_ber_band 260 = ("D1", "#ED1C24")
      ∧ get_ber_band 300 = ("D2", "#C1272D") ∧ get_ber_band 340 = ("E1", "#A1232B")
      ∧ get_ber_band 380 = ("E2", "#8B1A29") ∧ get_ber_band 450 = ("F", "#6D1A27") := by
  refine ⟨?_, ?_, ?_, ?_, ?_, ?_, ?_, ?_, ?_, ?_, ?_, ?_, ?_, ?_, ?_, ?_, ?_⟩
  · intro kwh h
    have h1 : ¬(kwh ≤ 25) := by linarith
    have h2 : ¬(kwh ≤ 50) := by linarith
    have h3 : ¬(kwh ≤ 75) := by linarith
    have h4 : ¬(kwh ≤ 100) := by linarith
    have h5 : ¬(kwh ≤ 125) := by linarith
    have h6 : ¬(kwh ≤ 150) := by linarith
    have h7 : ¬(kwh ≤ 175) := by linarith
    have h8 : ¬(kwh ≤ 200) := by linarith
    have h9 : ¬(kwh ≤ 225) := by linarith
    have h10 : ¬(kwh ≤ 260) := by linarith
    have h11 : ¬(kwh ≤ 300) := by linarith
    have h12 : ¬(kwh ≤ 340) := by linarith
    have h13 : ¬(kwh ≤ 380) := by linarith
    have h14 : ¬(kwh ≤ 450) := by linarith
    simp only [get_ber_band, BER_BANDS]
    rw [findBand_skip h1, findBand_skip h2, findBand_skip h3, findBand_skip h4, findBand_skip h5, findBand_skip h6, findBand_skip h7, findBand_skip h8, findBand_skip h9, findBand_skip h10, findBand_skip h11, findBand_skip h12, findBand_skip h13, findBand_skip h14, findBand_last]
  · intro kwh h
    have h1 : kwh ≤ 25 := by linarith
    simp only [get_ber_band, BER_BANDS]
    rw [findBand_here h1]
  · intro kwh
    rcases findBand_mem kwh BER_BANDS with h | ⟨e, he, h⟩
    · rw [get_ber_band, h]
      simp
    · rw [get_ber_band, h]
      fin_cases he <;> simp
  · simp only [get_ber_band, BER_BANDS]
    rw [findBand_here (by norm_num)]
  · simp only [get_ber_band, BER_BANDS]
    rw [findBand_skip (by norm_num), findBand_here (by norm_num)]
  · simp only [get_ber_band, BER_BANDS]
    rw [findBand_skip (by norm_num), findBand_skip (by norm_num), findBand_here (by norm_num)]
  · simp only [get_ber_band, BER_BANDS]
    rw [findBand_skip (by norm_num), findBand_skip (by norm_num), findBand_skip (by norm_num), findBand_here (by norm_num)]
  · simp only [get_ber_band, BER_BANDS]
    rw [findBand_skip (by norm_num), findBand_skip (by norm_num), findBand_skip (by norm_num), findBand_skip (by norm_num), findBand_here (by norm_num)]
  · simp only [get_ber_band, BER_BANDS]
    rw [findBand_skip (by norm_num), findBand_skip (by norm_num), findBand_skip (by norm_num), findBand_skip (by norm_num), findBand_skip (by norm_num), findBand_here (by norm_num)]
  · simp only [get_ber_band, BER_BANDS]
    rw [findBand_skip (by norm_num), findBand_skip (by norm_num), findBand_skip (by norm_num), findBand_skip (by norm_num), findBand_skip (by norm_num), findBand_skip (by norm_num), findBand_here (by norm_num)]
  · simp only [get_ber_band, BER_BANDS]
    rw [findBand_skip (by norm_num), findBand_skip (by norm_num), findBand_skip (by norm_num), findBand_skip (by norm_num), findBand_skip (by norm_num), findBand_skip (by norm_num), findBand_skip (by norm_num), findBand_here (by norm_num)]
  · simp only [get_ber_band, BER_BANDS]
    rw [findBand_skip (by norm_num), findBand_skip (by norm_num), findBand_skip (by norm_num), findBand_skip (by norm_num), findBand_skip (by norm_num), findBand_skip (by norm_num), findBand_skip (by norm_num), findBand_skip (by norm_num), findBand_here (by norm_num)]
  · simp only [get_ber_band, BER_BANDS]
    rw [findBand_skip (by norm_num), findBand_skip (by norm_num), findBand_skip (by norm_num), findBand_skip (by norm_num), findBand_skip (by norm_num), findBand_skip (by norm_num), findBand_skip (by norm_num), findBand_skip (by norm_num), findBand_skip (by norm_num), findBand_here (by norm_num)]
  · simp only [get_ber_band, BER_BANDS]
    rw [findBand_skip (by norm_num), findBand_skip (by norm_num), findBand_skip (by norm_num), findBand_skip (by norm_num), findBand_skip (by norm_num), findBand_skip (by norm_num), findBand_skip (by norm_num), findBand_skip (by norm_num), findBand_skip (by norm_num), findBand_skip (by norm_num), findBand_here (by norm_num)]
  · simp only [get_ber_band, BER_BANDS]
    rw [findBand_skip (by norm_num), findBand_skip (by norm_num), findBand_skip (by norm_num), findBand_skip (by norm_num), findBand_skip (by norm_num), findBand_skip (by norm_num), findBand_skip (by norm_num), findBand_skip (by norm_num), findBand_skip (by norm_num), findBand_skip (by norm_num), findBand_skip (by norm_num), findBand_here (by norm_num)]
  · simp only [get_ber_band, BER_BANDS]
    rw [findBand_skip (by norm_num), findBand_skip (by norm_num), findBand_skip (by norm_num), findBand_skip (by norm_num), findBand_skip (by norm_num), findBand_skip (by norm_num), findBand_skip (by norm_num), findBand_skip (by norm_num), findBand_skip (by norm_num), findBand_skip (by norm_num), findBand_skip (by norm_num), findBand_skip (by norm_num), findBand_here (by norm_num)]
  · simp only [get_ber_band, BER_BANDS]
    rw [findBand_skip (by norm_num), findBand_skip (by norm_num), findBand_skip (by norm_num), findBand_skip (by norm_num), findBand_skip (by norm_num), findBand_skip (by norm_num), findBand_skip (by norm_num), findBand_skip (by norm_num), findBand_skip (by norm_num), findBand_skip (by norm_num), findBand_skip (by norm_num), findBand_skip (by norm_num), findBand_skip (by norm_num), findBand_here (by norm_num)]

end BER
